import Mathlib

/-
  Shallow embedding of the wouter message codec (src/wouter/router/message.py).

  Wire values are modelled by the inductive type Val, covering the Python
  values this codec ever touches: integers, strings, lists, string-keyed
  dictionaries and None.  Python exceptions are modelled by PyErr and a
  fallible computation by Except PyErr.  Each message class becomes a
  structure whose fields are Vals (the Python code stores wire elements
  without type checks), together with an init function mirroring __init__,
  a marshal function and an unmarshal function mirroring the methods.
-/

namespace Wouter

/-- A Python exception, as far as the codec can raise one. -/
inductive PyErr where
  | valueError (msg : String)
  | indexError
  | attributeError
  | typeError
deriving DecidableEq

/-- A Python value as it appears in a wire form or message field. -/
inductive Val where
  | int (n : Int)
  | str (s : String)
  | list (xs : List Val)
  | dict (entries : List (String × Val))
  | none

/-- Python equality test between a wire value and an integer constant
(msg[0] == Type.X.value): true only for the equal integer, false for any
value of another type. -/
def valEqInt (v : Val) (n : Int) : Bool :=
  match v with
  | .int m => m == n
  | _ => false

/-- Python equality test between a wire value and a string constant
(r == "publisher"): true only for the equal string. -/
def valEqStr (v : Val) (s : String) : Bool :=
  match v with
  | .str t => t == s
  | _ => false

/-- Python truthiness of a value (bool(v)). -/
def pyTruthy : Val → Bool
  | .int n => n != 0
  | .str s => !s.toList.isEmpty
  | .list xs => !xs.isEmpty
  | .dict es => !es.isEmpty
  | .none => false

/-- Python msg[i] on a list: the element, or an IndexError. -/
def pyIndex (msg : List Val) (i : Nat) : Except PyErr Val :=
  match msg.get? i with
  | some v => Except.ok v
  | Option.none => Except.error PyErr.indexError

/-- Python d.get(k): None-default lookup on a dict, AttributeError when the
receiver is not a dict. -/
def pyDictGet (v : Val) (k : String) : Except PyErr Val :=
  match v with
  | .dict es =>
    match es.lookup k with
    | some x => Except.ok x
    | Option.none => Except.ok Val.none
  | _ => Except.error PyErr.attributeError

/-- Python iteration over a value: list elements, dict keys, the characters
of a string; anything else raises a TypeError. -/
def pyIter : Val → Except PyErr (List Val)
  | .list xs => Except.ok xs
  | .dict es => Except.ok (es.map (fun e => Val.str e.1))
  | .str s => Except.ok (s.toList.map (fun c => Val.str (String.singleton c)))
  | _ => Except.error PyErr.typeError

/-- The Type enumeration from message.py (named MsgType here because Type is
a Lean keyword): one symbolic name per message variant with its fixed
integer wire tag. -/
inductive MsgType where
  | HELLO
  | WELCOME
  | ABORT
  | GOODBYE
  | ERROR
  | PUBLISH
  | PUBLISHED
  | SUBSCRIBE
  | SUBSCRIBED
  | UNSUBSCRIBE
  | UNSUBSCRIBED
  | EVENT
  | CALL
  | RESULT
  | REGISTER
  | REGISTERED
  | UNREGISTER
  | UNREGISTERED
  | INVOCATION
  | YIELD
deriving DecidableEq, Fintype

/-- The integer code of each enum member (Type.X.value). -/
def MsgType.value : MsgType → Int
  | .HELLO => 1
  | .WELCOME => 2
  | .ABORT => 3
  | .GOODBYE => 6
  | .ERROR => 8
  | .PUBLISH => 16
  | .PUBLISHED => 17
  | .SUBSCRIBE => 32
  | .SUBSCRIBED => 33
  | .UNSUBSCRIBE => 34
  | .UNSUBSCRIBED => 35
  | .EVENT => 36
  | .CALL => 48
  | .RESULT => 50
  | .REGISTER => 64
  | .REGISTERED => 65
  | .UNREGISTER => 66
  | .UNREGISTERED => 67
  | .INVOCATION => 68
  | .YIELD => 70

/-- The members of the Type enumeration, in declaration order. -/
def msgTypeList : List MsgType :=
  [.HELLO, .WELCOME, .ABORT, .GOODBYE, .ERROR,
   .PUBLISH, .PUBLISHED, .SUBSCRIBE, .SUBSCRIBED, .UNSUBSCRIBE, .UNSUBSCRIBED, .EVENT,
   .CALL, .RESULT, .REGISTER, .REGISTERED, .UNREGISTER, .UNREGISTERED, .INVOCATION, .YIELD]

/-- Python Type(v): convert a wire value back to an enum member, raising a
ValueError when it is not the integer code of any member. -/
def msgTypeOfVal (v : Val) : Except PyErr MsgType :=
  match msgTypeList.find? (fun t => valEqInt v t.value) with
  | some t => Except.ok t
  | Option.none => Except.error (PyErr.valueError "is not a valid Type")

/-- The Hello message: realm plus a details dictionary that must announce
at least one client role. -/
structure Hello where
  type : MsgType
  realm : Val
  details : Val

/-- Hello.__init__: stores realm, validates details["roles"] against the
client role set, raising ValueError on a missing or empty roles entry or on
a role outside the set. -/
def Hello.init (realm details : Val) : Except PyErr Hello := do
  let roles ← pyDictGet details "roles"
  if pyTruthy roles then
    let rs ← pyIter roles
    if rs.all (fun r => valEqStr r "publisher" || valEqStr r "subscriber" ||
        valEqStr r "caller" || valEqStr r "callee") then
      Except.ok { type := MsgType.HELLO, realm := realm, details := details }
    else
      Except.error (PyErr.valueError "Invalid message roles")
  else
    Except.error (PyErr.valueError "Invalid message details")

/-- Hello.unmarshal: tag check then construction from msg[1], msg[2]. -/
def Hello.unmarshal (msg : List Val) : Except PyErr Hello := do
  let m0 ← pyIndex msg 0
  if valEqInt m0 MsgType.HELLO.value then
    let m1 ← pyIndex msg 1
    let m2 ← pyIndex msg 2
    Hello.init m1 m2
  else
    Except.error (PyErr.valueError "Invalid message")

/-- Hello.marshal. -/
def Hello.marshal (m : Hello) : List Val :=
  [Val.int m.type.value, m.realm, m.details]

/-- The Welcome message: session id plus a details dictionary that must
announce at least one router role. -/
structure Welcome where
  type : MsgType
  session : Val
  details : Val

/-- Welcome.__init__: stores session, validates details["roles"] against
the router role set in one combined check, raising ValueError otherwise. -/
def Welcome.init (session details : Val) : Except PyErr Welcome := do
  let roles ← pyDictGet details "roles"
  if pyTruthy roles then
    let rs ← pyIter roles
    if rs.all (fun r => valEqStr r "dealer" || valEqStr r "broker") then
      Except.ok { type := MsgType.WELCOME, session := session, details := details }
    else
      Except.error (PyErr.valueError "Invalid message details")
  else
    Except.error (PyErr.valueError "Invalid message details")

/-- Welcome.unmarshal. -/
def Welcome.unmarshal (msg : List Val) : Except PyErr Welcome := do
  let m0 ← pyIndex msg 0
  if valEqInt m0 MsgType.WELCOME.value then
    let m1 ← pyIndex msg 1
    let m2 ← pyIndex msg 2
    Welcome.init m1 m2
  else
    Except.error (PyErr.valueError "Invalid message")

/-- Welcome.marshal. -/
def Welcome.marshal (m : Welcome) : List Val :=
  [Val.int m.type.value, m.session, m.details]

/-- The Abort message. -/
structure Abort where
  type : MsgType
  details : Val
  reason : Val

/-- Abort.__init__: stores both fields with no validation. -/
def Abort.init (details reason : Val) : Abort :=
  { type := MsgType.ABORT, details := details, reason := reason }

/-- Abort.unmarshal. -/
def Abort.unmarshal (msg : List Val) : Except PyErr Abort := do
  let m0 ← pyIndex msg 0
  if valEqInt m0 MsgType.ABORT.value then
    let m1 ← pyIndex msg 1
    let m2 ← pyIndex msg 2
    Except.ok (Abort.init m1 m2)
  else
    Except.error (PyErr.valueError "Invalid message")

/-- Abort.marshal. -/
def Abort.marshal (m : Abort) : List Val :=
  [Val.int m.type.value, m.details, m.reason]

/-- The Goodbye message. -/
structure Goodbye where
  type : MsgType
  details : Val
  reason : Val

/-- Goodbye.__init__: stores both fields with no validation. -/
def Goodbye.init (details reason : Val) : Goodbye :=
  { type := MsgType.GOODBYE, details := details, reason := reason }

/-- Goodbye.unmarshal. -/
def Goodbye.unmarshal (msg : List Val) : Except PyErr Goodbye := do
  let m0 ← pyIndex msg 0
  if valEqInt m0 MsgType.GOODBYE.value then
    let m1 ← pyIndex msg 1
    let m2 ← pyIndex msg 2
    Except.ok (Goodbye.init m1 m2)
  else
    Except.error (PyErr.valueError "Invalid message")

/-- Goodbye.marshal. -/
def Goodbye.marshal (m : Goodbye) : List Val :=
  [Val.int m.type.value, m.details, m.reason]

/-- The Error message, with optional args and kwargs tail fields (absent is
Val.none, mirroring the None defaults). -/
structure Error where
  type : MsgType
  request_type : MsgType
  request_id : Val
  details : Val
  error : Val
  args : Val
  kwargs : Val

/-- Error.__init__: stores every field with no validation; args and kwargs
default to None at the call sites. -/
def Error.init (request_type : MsgType) (request_id details error args kwargs : Val) : Error :=
  { type := MsgType.ERROR, request_type := request_type, request_id := request_id,
    details := details, error := error, args := args, kwargs := kwargs }

/-- Error.unmarshal: tag check then length-directed construction.  The
source method has no final raise: on a wrong tag, or a matching tag with
fewer than five elements, control falls off the end and Python returns
None, modelled as Except.ok Option.none. -/
def Error.unmarshal (msg : List Val) : Except PyErr (Option Error) := do
  let m0 ← pyIndex msg 0
  if valEqInt m0 MsgType.ERROR.value then
    if msg.length > 6 then
      let m1 ← pyIndex msg 1
      let rt ← msgTypeOfVal m1
      let m2 ← pyIndex msg 2
      let m3 ← pyIndex msg 3
      let m4 ← pyIndex msg 4
      let m5 ← pyIndex msg 5
      let m6 ← pyIndex msg 6
      Except.ok (some (Error.init rt m2 m3 m4 m5 m6))
    else if msg.length > 5 then
      let m1 ← pyIndex msg 1
      let rt ← msgTypeOfVal m1
      let m2 ← pyIndex msg 2
      let m3 ← pyIndex msg 3
      let m4 ← pyIndex msg 4
      let m5 ← pyIndex msg 5
      Except.ok (some (Error.init rt m2 m3 m4 m5 Val.none))
    else if msg.length > 4 then
      let m1 ← pyIndex msg 1
      let rt ← msgTypeOfVal m1
      let m2 ← pyIndex msg 2
      let m3 ← pyIndex msg 3
      let m4 ← pyIndex msg 4
      Except.ok (some (Error.init rt m2 m3 m4 Val.none Val.none))
    else
      Except.ok Option.none
  else
    Except.ok Option.none

/-- Error.marshal: tail-trimmed by the truthiness of kwargs then args. -/
def Error.marshal (m : Error) : List Val :=
  if pyTruthy m.kwargs then
    [Val.int m.type.value, Val.int m.request_type.value, m.request_id, m.details, m.error,
     m.args, m.kwargs]
  else if pyTruthy m.args then
    [Val.int m.type.value, Val.int m.request_type.value, m.request_id, m.details, m.error,
     m.args]
  else
    [Val.int m.type.value, Val.int m.request_type.value, m.request_id, m.details, m.error]

/-- The Publish message, with optional args and kwargs tail fields. -/
structure Publish where
  type : MsgType
  request_id : Val
  options : Val
  topic : Val
  args : Val
  kwargs : Val

/-- Publish.__init__: stores every field with no validation. -/
def Publish.init (request_id options topic args kwargs : Val) : Publish :=
  { type := MsgType.PUBLISH, request_id := request_id, options := options,
    topic := topic, args := args, kwargs := kwargs }

/-- Publish.unmarshal: tag check, length-directed construction, and a final
raise when the tag mismatches or no length branch applies. -/
def Publish.unmarshal (msg : List Val) : Except PyErr Publish := do
  let m0 ← pyIndex msg 0
  if valEqInt m0 MsgType.PUBLISH.value then
    if msg.length > 5 then
      let m1 ← pyIndex msg 1
      let m2 ← pyIndex msg 2
      let m3 ← pyIndex msg 3
      let m4 ← pyIndex msg 4
      let m5 ← pyIndex msg 5
      Except.ok (Publish.init m1 m2 m3 m4 m5)
    else if msg.length > 4 then
      let m1 ← pyIndex msg 1
      let m2 ← pyIndex msg 2
      let m3 ← pyIndex msg 3
      let m4 ← pyIndex msg 4
      Except.ok (Publish.init m1 m2 m3 m4 Val.none)
    else if msg.length > 3 then
      let m1 ← pyIndex msg 1
      let m2 ← pyIndex msg 2
      let m3 ← pyIndex msg 3
      Except.ok (Publish.init m1 m2 m3 Val.none Val.none)
    else
      Except.error (PyErr.valueError "Invalid message")
  else
    Except.error (PyErr.valueError "Invalid message")

/-- Publish.marshal: tail-trimmed by the truthiness of kwargs then args. -/
def Publish.marshal (m : Publish) : List Val :=
  if pyTruthy m.kwargs then
    [Val.int m.type.value, m.request_id, m.options, m.topic, m.args, m.kwargs]
  else if pyTruthy m.args then
    [Val.int m.type.value, m.request_id, m.options, m.topic, m.args]
  else
    [Val.int m.type.value, m.request_id, m.options, m.topic]

/-- The Published acknowledgement message. -/
structure Published where
  type : MsgType
  request_id : Val
  publication_id : Val

/-- Published.__init__: stores both fields with no validation. -/
def Published.init (request_id publication_id : Val) : Published :=
  { type := MsgType.PUBLISHED, request_id := request_id, publication_id := publication_id }

/-- Published.unmarshal. -/
def Published.unmarshal (msg : List Val) : Except PyErr Published := do
  let m0 ← pyIndex msg 0
  if valEqInt m0 MsgType.PUBLISHED.value then
    let m1 ← pyIndex msg 1
    let m2 ← pyIndex msg 2
    Except.ok (Published.init m1 m2)
  else
    Except.error (PyErr.valueError "Invalid message")

/-- Published.marshal. -/
def Published.marshal (m : Published) : List Val :=
  [Val.int m.type.value, m.request_id, m.publication_id]

/-- The Subscribe message. -/
structure Subscribe where
  type : MsgType
  request_id : Val
  options : Val
  topic : Val

/-- Subscribe.__init__: stores every field with no validation. -/
def Subscribe.init (request_id options topic : Val) : Subscribe :=
  { type := MsgType.SUBSCRIBE, request_id := request_id, options := options, topic := topic }

/-- Subscribe.unmarshal. -/
def Subscribe.unmarshal (msg : List Val) : Except PyErr Subscribe := do
  let m0 ← pyIndex msg 0
  if valEqInt m0 MsgType.SUBSCRIBE.value then
    let m1 ← pyIndex msg 1
    let m2 ← pyIndex msg 2
    let m3 ← pyIndex msg 3
    Except.ok (Subscribe.init m1 m2 m3)
  else
    Except.error (PyErr.valueError "Invalid message")

/-- Subscribe.marshal. -/
def Subscribe.marshal (m : Subscribe) : List Val :=
  [Val.int m.type.value, m.request_id, m.options, m.topic]

/-- The Subscribed acknowledgement message. -/
structure Subscribed where
  type : MsgType
  request_id : Val
  subscription_id : Val

/-- Subscribed.__init__: stores both fields with no validation. -/
def Subscribed.init (request_id subscription_id : Val) : Subscribed :=
  { type := MsgType.SUBSCRIBED, request_id := request_id, subscription_id := subscription_id }

/-- Subscribed.unmarshal. -/
def Subscribed.unmarshal (msg : List Val) : Except PyErr Subscribed := do
  let m0 ← pyIndex msg 0
  if valEqInt m0 MsgType.SUBSCRIBED.value then
    let m1 ← pyIndex msg 1
    let m2 ← pyIndex msg 2
    Except.ok (Subscribed.init m1 m2)
  else
    Except.error (PyErr.valueError "Invalid message")

/-- Subscribed.marshal. -/
def Subscribed.marshal (m : Subscribed) : List Val :=
  [Val.int m.type.value, m.request_id, m.subscription_id]

/-- The Unsubscribe message. -/
structure Unsubscribe where
  type : MsgType
  request_id : Val
  subscription_id : Val

/-- Unsubscribe.__init__: stores both fields with no validation. -/
def Unsubscribe.init (request_id subscription_id : Val) : Unsubscribe :=
  { type := MsgType.UNSUBSCRIBE, request_id := request_id, subscription_id := subscription_id }

/-- Unsubscribe.unmarshal. -/
def Unsubscribe.unmarshal (msg : List Val) : Except PyErr Unsubscribe := do
  let m0 ← pyIndex msg 0
  if valEqInt m0 MsgType.UNSUBSCRIBE.value then
    let m1 ← pyIndex msg 1
    let m2 ← pyIndex msg 2
    Except.ok (Unsubscribe.init m1 m2)
  else
    Except.error (PyErr.valueError "Invalid message")

/-- Unsubscribe.marshal. -/
def Unsubscribe.marshal (m : Unsubscribe) : List Val :=
  [Val.int m.type.value, m.request_id, m.subscription_id]

/-- The Unsubscribed acknowledgement message. -/
structure Unsubscribed where
  type : MsgType
  request_id : Val

/-- Unsubscribed.__init__: stores its field with no validation. -/
def Unsubscribed.init (request_id : Val) : Unsubscribed :=
  { type := MsgType.UNSUBSCRIBED, request_id := request_id }

/-- Unsubscribed.unmarshal. -/
def Unsubscribed.unmarshal (msg : List Val) : Except PyErr Unsubscribed := do
  let m0 ← pyIndex msg 0
  if valEqInt m0 MsgType.UNSUBSCRIBED.value then
    let m1 ← pyIndex msg 1
    Except.ok (Unsubscribed.init m1)
  else
    Except.error (PyErr.valueError "Invalid message")

/-- Unsubscribed.marshal. -/
def Unsubscribed.marshal (m : Unsubscribed) : List Val :=
  [Val.int m.type.value, m.request_id]

/-- The Event message, with optional args and kwargs tail fields. -/
structure Event where
  type : MsgType
  subscription_id : Val
  publication_id : Val
  details : Val
  args : Val
  kwargs : Val

/-- Event.__init__: stores every field with no validation. -/
def Event.init (subscription_id publication_id details args kwargs : Val) : Event :=
  { type := MsgType.EVENT, subscription_id := subscription_id,
    publication_id := publication_id, details := details, args := args, kwargs := kwargs }

/-- Event.unmarshal: tag check, length-directed construction, final raise. -/
def Event.unmarshal (msg : List Val) : Except PyErr Event := do
  let m0 ← pyIndex msg 0
  if valEqInt m0 MsgType.EVENT.value then
    if msg.length > 5 then
      let m1 ← pyIndex msg 1
      let m2 ← pyIndex msg 2
      let m3 ← pyIndex msg 3
      let m4 ← pyIndex msg 4
      let m5 ← pyIndex msg 5
      Except.ok (Event.init m1 m2 m3 m4 m5)
    else if msg.length > 4 then
      let m1 ← pyIndex msg 1
      let m2 ← pyIndex msg 2
      let m3 ← pyIndex msg 3
      let m4 ← pyIndex msg 4
      Except.ok (Event.init m1 m2 m3 m4 Val.none)
    else if msg.length > 3 then
      let m1 ← pyIndex msg 1
      let m2 ← pyIndex msg 2
      let m3 ← pyIndex msg 3
      Except.ok (Event.init m1 m2 m3 Val.none Val.none)
    else
      Except.error (PyErr.valueError "Invalid message")
  else
    Except.error (PyErr.valueError "Invalid message")

/-- Event.marshal: tail-trimmed by the truthiness of kwargs then args. -/
def Event.marshal (m : Event) : List Val :=
  if pyTruthy m.kwargs then
    [Val.int m.type.value, m.subscription_id, m.publication_id, m.details, m.args, m.kwargs]
  else if pyTruthy m.args then
    [Val.int m.type.value, m.subscription_id, m.publication_id, m.details, m.args]
  else
    [Val.int m.type.value, m.subscription_id, m.publication_id, m.details]

/-- The Call message, with optional args and kwargs tail fields. -/
structure Call where
  type : MsgType
  request_id : Val
  options : Val
  procedure : Val
  args : Val
  kwargs : Val

/-- Call.__init__: stores every field with no validation. -/
def Call.init (request_id options procedure args kwargs : Val) : Call :=
  { type := MsgType.CALL, request_id := request_id, options := options,
    procedure := procedure, args := args, kwargs := kwargs }

/-- Call.unmarshal: tag check, length-directed construction, final raise. -/
def Call.unmarshal (msg : List Val) : Except PyErr Call := do
  let m0 ← pyIndex msg 0
  if valEqInt m0 MsgType.CALL.value then
    if msg.length > 5 then
      let m1 ← pyIndex msg 1
      let m2 ← pyIndex msg 2
      let m3 ← pyIndex msg 3
      let m4 ← pyIndex msg 4
      let m5 ← pyIndex msg 5
      Except.ok (Call.init m1 m2 m3 m4 m5)
    else if msg.length > 4 then
      let m1 ← pyIndex msg 1
      let m2 ← pyIndex msg 2
      let m3 ← pyIndex msg 3
      let m4 ← pyIndex msg 4
      Except.ok (Call.init m1 m2 m3 m4 Val.none)
    else if msg.length > 3 then
      let m1 ← pyIndex msg 1
      let m2 ← pyIndex msg 2
      let m3 ← pyIndex msg 3
      Except.ok (Call.init m1 m2 m3 Val.none Val.none)
    else
      Except.error (PyErr.valueError "Invalid message")
  else
    Except.error (PyErr.valueError "Invalid message")

/-- Call.marshal: tail-trimmed by the truthiness of kwargs then args. -/
def Call.marshal (m : Call) : List Val :=
  if pyTruthy m.kwargs then
    [Val.int m.type.value, m.request_id, m.options, m.procedure, m.args, m.kwargs]
  else if pyTruthy m.args then
    [Val.int m.type.value, m.request_id, m.options, m.procedure, m.args]
  else
    [Val.int m.type.value, m.request_id, m.options, m.procedure]

/-- The Result message, with optional args and kwargs tail fields. -/
structure Result where
  type : MsgType
  request_id : Val
  details : Val
  args : Val
  kwargs : Val

/-- Result.__init__: stores every field with no validation. -/
def Result.init (request_id details args kwargs : Val) : Result :=
  { type := MsgType.RESULT, request_id := request_id, details := details,
    args := args, kwargs := kwargs }

/-- Result.unmarshal: tag check, length-directed construction, final raise. -/
def Result.unmarshal (msg : List Val) : Except PyErr Result := do
  let m0 ← pyIndex msg 0
  if valEqInt m0 MsgType.RESULT.value then
    if msg.length > 4 then
      let m1 ← pyIndex msg 1
      let m2 ← pyIndex msg 2
      let m3 ← pyIndex msg 3
      let m4 ← pyIndex msg 4
      Except.ok (Result.init m1 m2 m3 m4)
    else if msg.length > 3 then
      let m1 ← pyIndex msg 1
      let m2 ← pyIndex msg 2
      let m3 ← pyIndex msg 3
      Except.ok (Result.init m1 m2 m3 Val.none)
    else if msg.length > 2 then
      let m1 ← pyIndex msg 1
      let m2 ← pyIndex msg 2
      Except.ok (Result.init m1 m2 Val.none Val.none)
    else
      Except.error (PyErr.valueError "Invalid message")
  else
    Except.error (PyErr.valueError "Invalid message")

/-- Result.marshal: tail-trimmed by the truthiness of kwargs then args. -/
def Result.marshal (m : Result) : List Val :=
  if pyTruthy m.kwargs then
    [Val.int m.type.value, m.request_id, m.details, m.args, m.kwargs]
  else if pyTruthy m.args then
    [Val.int m.type.value, m.request_id, m.details, m.args]
  else
    [Val.int m.type.value, m.request_id, m.details]

/-- The Register message. -/
structure Register where
  type : MsgType
  request_id : Val
  options : Val
  procedure : Val

/-- Register.__init__: stores every field with no validation. -/
def Register.init (request_id options procedure : Val) : Register :=
  { type := MsgType.REGISTER, request_id := request_id, options := options,
    procedure := procedure }

/-- Register.unmarshal. -/
def Register.unmarshal (msg : List Val) : Except PyErr Register := do
  let m0 ← pyIndex msg 0
  if valEqInt m0 MsgType.REGISTER.value then
    let m1 ← pyIndex msg 1
    let m2 ← pyIndex msg 2
    let m3 ← pyIndex msg 3
    Except.ok (Register.init m1 m2 m3)
  else
    Except.error (PyErr.valueError "Invalid message")

/-- Register.marshal. -/
def Register.marshal (m : Register) : List Val :=
  [Val.int m.type.value, m.request_id, m.options, m.procedure]

/-- The Registered acknowledgement message. -/
structure Registered where
  type : MsgType
  request_id : Val
  registration_id : Val

/-- Registered.__init__: stores both fields with no validation. -/
def Registered.init (request_id registration_id : Val) : Registered :=
  { type := MsgType.REGISTERED, request_id := request_id,
    registration_id := registration_id }

/-- Registered.unmarshal. -/
def Registered.unmarshal (msg : List Val) : Except PyErr Registered := do
  let m0 ← pyIndex msg 0
  if valEqInt m0 MsgType.REGISTERED.value then
    let m1 ← pyIndex msg 1
    let m2 ← pyIndex msg 2
    Except.ok (Registered.init m1 m2)
  else
    Except.error (PyErr.valueError "Invalid message")

/-- Registered.marshal. -/
def Registered.marshal (m : Registered) : List Val :=
  [Val.int m.type.value, m.request_id, m.registration_id]

/-- The Unregister message. -/
structure Unregister where
  type : MsgType
  request_id : Val
  registration_id : Val

/-- Unregister.__init__: stores both fields with no validation. -/
def Unregister.init (request_id registration_id : Val) : Unregister :=
  { type := MsgType.UNREGISTER, request_id := request_id,
    registration_id := registration_id }

/-- Unregister.unmarshal. -/
def Unregister.unmarshal (msg : List Val) : Except PyErr Unregister := do
  let m0 ← pyIndex msg 0
  if valEqInt m0 MsgType.UNREGISTER.value then
    let m1 ← pyIndex msg 1
    let m2 ← pyIndex msg 2
    Except.ok (Unregister.init m1 m2)
  else
    Except.error (PyErr.valueError "Invalid message")

/-- Unregister.marshal. -/
def Unregister.marshal (m : Unregister) : List Val :=
  [Val.int m.type.value, m.request_id, m.registration_id]

/-- The Unregistered acknowledgement message. -/
structure Unregistered where
  type : MsgType
  request_id : Val

/-- Unregistered.__init__: stores its field with no validation. -/
def Unregistered.init (request_id : Val) : Unregistered :=
  { type := MsgType.UNREGISTERED, request_id := request_id }

/-- Unregistered.unmarshal. -/
def Unregistered.unmarshal (msg : List Val) : Except PyErr Unregistered := do
  let m0 ← pyIndex msg 0
  if valEqInt m0 MsgType.UNREGISTERED.value then
    let m1 ← pyIndex msg 1
    Except.ok (Unregistered.init m1)
  else
    Except.error (PyErr.valueError "Invalid message")

/-- Unregistered.marshal. -/
def Unregistered.marshal (m : Unregistered) : List Val :=
  [Val.int m.type.value, m.request_id]

/-- The Invocation message, with optional args and kwargs tail fields. -/
structure Invocation where
  type : MsgType
  request_id : Val
  registration_id : Val
  details : Val
  args : Val
  kwargs : Val

/-- Invocation.__init__: stores every field with no validation. -/
def Invocation.init (request_id registration_id details args kwargs : Val) : Invocation :=
  { type := MsgType.INVOCATION, request_id := request_id,
    registration_id := registration_id, details := details, args := args, kwargs := kwargs }

/-- Invocation.unmarshal: tag check, length-directed construction, final
raise. -/
def Invocation.unmarshal (msg : List Val) : Except PyErr Invocation := do
  let m0 ← pyIndex msg 0
  if valEqInt m0 MsgType.INVOCATION.value then
    if msg.length > 5 then
      let m1 ← pyIndex msg 1
      let m2 ← pyIndex msg 2
      let m3 ← pyIndex msg 3
      let m4 ← pyIndex msg 4
      let m5 ← pyIndex msg 5
      Except.ok (Invocation.init m1 m2 m3 m4 m5)
    else if msg.length > 4 then
      let m1 ← pyIndex msg 1
      let m2 ← pyIndex msg 2
      let m3 ← pyIndex msg 3
      let m4 ← pyIndex msg 4
      Except.ok (Invocation.init m1 m2 m3 m4 Val.none)
    else if msg.length > 3 then
      let m1 ← pyIndex msg 1
      let m2 ← pyIndex msg 2
      let m3 ← pyIndex msg 3
      Except.ok (Invocation.init m1 m2 m3 Val.none Val.none)
    else
      Except.error (PyErr.valueError "Invalid message")
  else
    Except.error (PyErr.valueError "Invalid message")

/-- Invocation.marshal: tail-trimmed by the truthiness of kwargs then
args. -/
def Invocation.marshal (m : Invocation) : List Val :=
  if pyTruthy m.kwargs then
    [Val.int m.type.value, m.request_id, m.registration_id, m.details, m.args, m.kwargs]
  else if pyTruthy m.args then
    [Val.int m.type.value, m.request_id, m.registration_id, m.details, m.args]
  else
    [Val.int m.type.value, m.request_id, m.registration_id, m.details]

/-- The Yield message, with optional args and kwargs tail fields. -/
structure Yield where
  type : MsgType
  request_id : Val
  options : Val
  args : Val
  kwargs : Val

/-- Yield.__init__: stores every field with no validation. -/
def Yield.init (request_id options args kwargs : Val) : Yield :=
  { type := MsgType.YIELD, request_id := request_id, options := options,
    args := args, kwargs := kwargs }

/-- Yield.unmarshal: tag check, length-directed construction, final raise. -/
def Yield.unmarshal (msg : List Val) : Except PyErr Yield := do
  let m0 ← pyIndex msg 0
  if valEqInt m0 MsgType.YIELD.value then
    if msg.length > 4 then
      let m1 ← pyIndex msg 1
      let m2 ← pyIndex msg 2
      let m3 ← pyIndex msg 3
      let m4 ← pyIndex msg 4
      Except.ok (Yield.init m1 m2 m3 m4)
    else if msg.length > 3 then
      let m1 ← pyIndex msg 1
      let m2 ← pyIndex msg 2
      let m3 ← pyIndex msg 3
      Except.ok (Yield.init m1 m2 m3 Val.none)
    else if msg.length > 2 then
      let m1 ← pyIndex msg 1
      let m2 ← pyIndex msg 2
      Except.ok (Yield.init m1 m2 Val.none Val.none)
    else
      Except.error (PyErr.valueError "Invalid message")
  else
    Except.error (PyErr.valueError "Invalid message")

/-- Yield.marshal: tail-trimmed by the truthiness of kwargs then args. -/
def Yield.marshal (m : Yield) : List Val :=
  if pyTruthy m.kwargs then
    [Val.int m.type.value, m.request_id, m.options, m.args, m.kwargs]
  else if pyTruthy m.args then
    [Val.int m.type.value, m.request_id, m.options, m.args]
  else
    [Val.int m.type.value, m.request_id, m.options]

/-- A wire value that is either the absent marker or a possibly-empty
sequence; the domain of the optional args fields. -/
def seqOrAbsent (v : Val) : Prop :=
  v = Val.none ∨ ∃ xs, v = Val.list xs

/-- A wire value that is either the absent marker or a possibly-empty map;
the domain of the optional kwargs fields. -/
def mapOrAbsent (v : Val) : Prop :=
  v = Val.none ∨ ∃ es, v = Val.dict es

/-- A wire value that is either the absent marker or a non-empty sequence. -/
def absentOrNonemptySeq (v : Val) : Prop :=
  v = Val.none ∨ ∃ xs, xs ≠ [] ∧ v = Val.list xs

/-- A wire value that is either the absent marker or a non-empty map. -/
def absentOrNonemptyMap (v : Val) : Prop :=
  v = Val.none ∨ ∃ es, es ≠ [] ∧ v = Val.dict es

/-- An optional tail value that is present in the sense of the spec:
not absent and not an empty collection. -/
def present (v : Val) : Prop :=
  v ≠ Val.none ∧ pyTruthy v = true

theorem exBind_ok {α β : Type} (a : α) (f : α → Except PyErr β) :
    (Except.ok a >>= f) = f a := rfl

theorem exBind_error {α β : Type} (e : PyErr) (f : α → Except PyErr β) :
    ((Except.error e : Except PyErr α) >>= f) = Except.error e := rfl

theorem valEqInt_true_iff (v : Val) (n : Int) : valEqInt v n = true ↔ v = Val.int n := by
  cases v <;> simp [valEqInt]

theorem valEqInt_false_iff (v : Val) (n : Int) : valEqInt v n = false ↔ v ≠ Val.int n := by
  cases v <;> simp [valEqInt]

theorem msgTypeOfVal_value (t : MsgType) : msgTypeOfVal (Val.int t.value) = Except.ok t := by
  cases t <;> rfl

theorem pyTruthy_list_iff (xs : List Val) : pyTruthy (Val.list xs) = true ↔ xs ≠ [] := by
  simp [pyTruthy]

theorem pyTruthy_dict_iff (es : List (String × Val)) :
    pyTruthy (Val.dict es) = true ↔ es ≠ [] := by
  simp [pyTruthy]

theorem pyTruthy_none_eq : pyTruthy Val.none = false := rfl

/-- For an iterable value, Python truthiness coincides with the iteration
being non-empty. -/
theorem pyTruthy_of_iter (v : Val) (xs : List Val) (h : pyIter v = Except.ok xs) :
    pyTruthy v = !xs.isEmpty := by
  cases v <;> simp_all [pyIter, pyTruthy] <;> subst h <;>
    cases h2 : List.isEmpty _ <;> simp_all [List.isEmpty_iff]

theorem error_marshal_head (m : Error) : m.marshal.head? = some (Val.int m.type.value) := by
  cases h1 : pyTruthy m.kwargs <;> cases h2 : pyTruthy m.args <;>
    simp [Error.marshal, h1, h2]

theorem publish_marshal_head (m : Publish) : m.marshal.head? = some (Val.int m.type.value) := by
  cases h1 : pyTruthy m.kwargs <;> cases h2 : pyTruthy m.args <;>
    simp [Publish.marshal, h1, h2]

theorem event_marshal_head (m : Event) : m.marshal.head? = some (Val.int m.type.value) := by
  cases h1 : pyTruthy m.kwargs <;> cases h2 : pyTruthy m.args <;>
    simp [Event.marshal, h1, h2]

theorem call_marshal_head (m : Call) : m.marshal.head? = some (Val.int m.type.value) := by
  cases h1 : pyTruthy m.kwargs <;> cases h2 : pyTruthy m.args <;>
    simp [Call.marshal, h1, h2]

theorem result_marshal_head (m : Result) : m.marshal.head? = some (Val.int m.type.value) := by
  cases h1 : pyTruthy m.kwargs <;> cases h2 : pyTruthy m.args <;>
    simp [Result.marshal, h1, h2]

theorem invocation_marshal_head (m : Invocation) :
    m.marshal.head? = some (Val.int m.type.value) := by
  cases h1 : pyTruthy m.kwargs <;> cases h2 : pyTruthy m.args <;>
    simp [Invocation.marshal, h1, h2]

theorem yield_marshal_head (m : Yield) : m.marshal.head? = some (Val.int m.type.value) := by
  cases h1 : pyTruthy m.kwargs <;> cases h2 : pyTruthy m.args <;>
    simp [Yield.marshal, h1, h2]

/-- Inversion for a successful Hello construction: the resulting record
holds exactly the passed fields with the fixed HELLO tag. -/
theorem hello_init_ok (realm details : Val) (m : Hello)
    (h : Hello.init realm details = Except.ok m) :
    m = { type := MsgType.HELLO, realm := realm, details := details } := by
  unfold Hello.init at h
  cases hg : pyDictGet details "roles" with
  | error e => rw [hg, exBind_error] at h; simp at h
  | ok roles =>
    rw [hg, exBind_ok] at h
    split at h
    · cases hi : pyIter roles with
      | error e => rw [hi, exBind_error] at h; simp at h
      | ok rs =>
        rw [hi, exBind_ok] at h
        split at h
        · injection h with h2; exact h2.symm
        · simp at h
    · simp at h

theorem pyTruthy_eq_false_of_not_present (v : Val) (h : ¬ present v) :
    pyTruthy v = false := by
  cases hv : pyTruthy v with
  | false => rfl
  | true =>
    have hne : v ≠ Val.none := by
      intro hn
      rw [hn] at hv
      simp [pyTruthy] at hv
    exact absurd ⟨hne, hv⟩ h

/-- Inversion for a successful Welcome construction. -/
theorem welcome_init_ok (session details : Val) (m : Welcome)
    (h : Welcome.init session details = Except.ok m) :
    m = { type := MsgType.WELCOME, session := session, details := details } := by
  unfold Welcome.init at h
  cases hg : pyDictGet details "roles" with
  | error e => rw [hg, exBind_error] at h; simp at h
  | ok roles =>
    rw [hg, exBind_ok] at h
    split at h
    · cases hi : pyIter roles with
      | error e => rw [hi, exBind_error] at h; simp at h
      | ok rs =>
        rw [hi, exBind_ok] at h
        split at h
        · injection h with h2; exact h2.symm
        · simp at h
    · simp at h

/-- C8 counterexample: the Type enumeration does not contain 21 symbolic
names; its cardinality is 20, refuting the claimed count. -/
theorem msgType_card_ne_21_cx : Fintype.card MsgType ≠ 21 := by decide

/-- C8 (amended): the Type enumeration is a closed, injective mapping
containing exactly 20 symbolic names, one per message variant, whose
integer codes are exactly the listed 20-element set, with no two variants
sharing a tag. -/
theorem msgType_enum_20_members :
    Fintype.card MsgType = 20 ∧
    Function.Injective MsgType.value ∧
    Finset.image MsgType.value Finset.univ =
      ({1, 2, 3, 6, 8, 16, 17, 32, 33, 34, 35, 36, 48, 50,
        64, 65, 66, 67, 68, 70} : Finset Int) := by
  exact ⟨by decide, by decide, by decide⟩

/-- C5 counterexample: a Call constructed with args equal to the empty
sequence and kwargs absent marshals to the truncated four-element form
without the args element, so a present-but-empty sequence does not count
as present. -/
theorem empty_args_counts_present_cx :
    (Call.init (Val.int 1) (Val.dict []) (Val.str "proc") (Val.list []) Val.none).marshal =
      [Val.int 48, Val.int 1, Val.dict [], Val.str "proc"] ∧
    ((Call.init (Val.int 1) (Val.dict []) (Val.str "proc") (Val.list [])
        Val.none).marshal).length = 4 := ⟨rfl, rfl⟩

/-- C5 (amended): in the tail-trim rule a present-but-empty sequence counts
as absent: for every variant with optional tail fields, a message
constructed with args equal to an empty sequence and kwargs absent marshals
to the truncated wire form without the args element. -/
theorem empty_args_marshals_truncated :
    (∀ rt rid d e, (Error.init rt rid d e (Val.list []) Val.none).marshal =
      [Val.int 8, Val.int rt.value, rid, d, e]) ∧
    (∀ rid o t, (Publish.init rid o t (Val.list []) Val.none).marshal =
      [Val.int 16, rid, o, t]) ∧
    (∀ sid pid d, (Event.init sid pid d (Val.list []) Val.none).marshal =
      [Val.int 36, sid, pid, d]) ∧
    (∀ rid o p, (Call.init rid o p (Val.list []) Val.none).marshal =
      [Val.int 48, rid, o, p]) ∧
    (∀ rid d, (Result.init rid d (Val.list []) Val.none).marshal =
      [Val.int 50, rid, d]) ∧
    (∀ rid regid d, (Invocation.init rid regid d (Val.list []) Val.none).marshal =
      [Val.int 68, rid, regid, d]) ∧
    (∀ rid o, (Yield.init rid o (Val.list []) Val.none).marshal =
      [Val.int 70, rid, o]) := by
  refine ⟨fun rt rid d e => ?_, fun rid o t => rfl, fun sid pid d => rfl,
    fun rid o p => rfl, fun rid d => rfl, fun rid regid d => rfl, fun rid o => rfl⟩
  simp [Error.marshal, Error.init, pyTruthy, MsgType.value]

/-- C4: for every variant with optional tail fields, marshal emits the full
form ending in kwargs when kwargs is present (non-absent and non-empty),
else the form ending in args when args is present, else the form truncated
before args; and the two concrete Publish scenarios produce the length-5
and length-4 forms. -/
theorem tail_trim_rule :
    (∀ rt rid d e a k,
      (present k → (Error.init rt rid d e a k).marshal =
        [Val.int 8, Val.int rt.value, rid, d, e, a, k]) ∧
      (¬ present k → present a → (Error.init rt rid d e a k).marshal =
        [Val.int 8, Val.int rt.value, rid, d, e, a]) ∧
      (¬ present k → ¬ present a → (Error.init rt rid d e a k).marshal =
        [Val.int 8, Val.int rt.value, rid, d, e])) ∧
    (∀ rid o t a k,
      (present k → (Publish.init rid o t a k).marshal = [Val.int 16, rid, o, t, a, k]) ∧
      (¬ present k → present a → (Publish.init rid o t a k).marshal =
        [Val.int 16, rid, o, t, a]) ∧
      (¬ present k → ¬ present a → (Publish.init rid o t a k).marshal =
        [Val.int 16, rid, o, t])) ∧
    (∀ sid pid d a k,
      (present k → (Event.init sid pid d a k).marshal = [Val.int 36, sid, pid, d, a, k]) ∧
      (¬ present k → present a → (Event.init sid pid d a k).marshal =
        [Val.int 36, sid, pid, d, a]) ∧
      (¬ present k → ¬ present a → (Event.init sid pid d a k).marshal =
        [Val.int 36, sid, pid, d])) ∧
    (∀ rid o p a k,
      (present k → (Call.init rid o p a k).marshal = [Val.int 48, rid, o, p, a, k]) ∧
      (¬ present k → present a → (Call.init rid o p a k).marshal =
        [Val.int 48, rid, o, p, a]) ∧
      (¬ present k → ¬ present a → (Call.init rid o p a k).marshal =
        [Val.int 48, rid, o, p])) ∧
    (∀ rid d a k,
      (present k → (Result.init rid d a k).marshal = [Val.int 50, rid, d, a, k]) ∧
      (¬ present k → present a → (Result.init rid d a k).marshal =
        [Val.int 50, rid, d, a]) ∧
      (¬ present k → ¬ present a → (Result.init rid d a k).marshal =
        [Val.int 50, rid, d])) ∧
    (∀ rid regid d a k,
      (present k → (Invocation.init rid regid d a k).marshal =
        [Val.int 68, rid, regid, d, a, k]) ∧
      (¬ present k → present a → (Invocation.init rid regid d a k).marshal =
        [Val.int 68, rid, regid, d, a]) ∧
      (¬ present k → ¬ present a → (Invocation.init rid regid d a k).marshal =
        [Val.int 68, rid, regid, d])) ∧
    (∀ rid o a k,
      (present k → (Yield.init rid o a k).marshal = [Val.int 70, rid, o, a, k]) ∧
      (¬ present k → present a → (Yield.init rid o a k).marshal =
        [Val.int 70, rid, o, a]) ∧
      (¬ present k → ¬ present a → (Yield.init rid o a k).marshal =
        [Val.int 70, rid, o])) ∧
    (Publish.init (Val.int 239714735) (Val.dict []) (Val.str "com.myapp.mytopic1")
        (Val.list [Val.str "Hello, world!"]) Val.none).marshal =
      [Val.int 16, Val.int 239714735, Val.dict [], Val.str "com.myapp.mytopic1",
       Val.list [Val.str "Hello, world!"]] ∧
    ((Publish.init (Val.int 239714735) (Val.dict []) (Val.str "com.myapp.mytopic1")
        (Val.list [Val.str "Hello, world!"]) Val.none).marshal).length = 5 ∧
    (Publish.init (Val.int 239714735) (Val.dict []) (Val.str "com.myapp.mytopic1")
        Val.none Val.none).marshal =
      [Val.int 16, Val.int 239714735, Val.dict [], Val.str "com.myapp.mytopic1"] ∧
    ((Publish.init (Val.int 239714735) (Val.dict []) (Val.str "com.myapp.mytopic1")
        Val.none Val.none).marshal).length = 4 := by
  refine ⟨fun rt rid d e a k => ⟨fun hp => ?_, fun hnk hpa => ?_, fun hnk hna => ?_⟩,
    fun rid o t a k => ⟨fun hp => ?_, fun hnk hpa => ?_, fun hnk hna => ?_⟩,
    fun sid pid d a k => ⟨fun hp => ?_, fun hnk hpa => ?_, fun hnk hna => ?_⟩,
    fun rid o p a k => ⟨fun hp => ?_, fun hnk hpa => ?_, fun hnk hna => ?_⟩,
    fun rid d a k => ⟨fun hp => ?_, fun hnk hpa => ?_, fun hnk hna => ?_⟩,
    fun rid regid d a k => ⟨fun hp => ?_, fun hnk hpa => ?_, fun hnk hna => ?_⟩,
    fun rid o a k => ⟨fun hp => ?_, fun hnk hpa => ?_, fun hnk hna => ?_⟩,
    rfl, rfl, rfl, rfl⟩
  all_goals first
    | simp [Error.marshal, Error.init, Publish.marshal, Publish.init, Event.marshal,
        Event.init, Call.marshal, Call.init, Result.marshal, Result.init,
        Invocation.marshal, Invocation.init, Yield.marshal, Yield.init, MsgType.value,
        hp.2]
    | simp [Error.marshal, Error.init, Publish.marshal, Publish.init, Event.marshal,
        Event.init, Call.marshal, Call.init, Result.marshal, Result.init,
        Invocation.marshal, Invocation.init, Yield.marshal, Yield.init, MsgType.value,
        pyTruthy_eq_false_of_not_present _ hnk, hpa.2]
    | simp [Error.marshal, Error.init, Publish.marshal, Publish.init, Event.marshal,
        Event.init, Call.marshal, Call.init, Result.marshal, Result.init,
        Invocation.marshal, Invocation.init, Yield.marshal, Yield.init, MsgType.value,
        pyTruthy_eq_false_of_not_present _ hnk, pyTruthy_eq_false_of_not_present _ hna]

/-- C4 witness: the tail-trim rule applied at concrete inputs, discharging
the presence and absence hypotheses. -/
theorem tail_trim_rule_witness :
    (Publish.init (Val.int 1) (Val.dict []) (Val.str "t") (Val.list [Val.int 2])
        (Val.dict [("a", Val.int 3)])).marshal =
      [Val.int 16, Val.int 1, Val.dict [], Val.str "t", Val.list [Val.int 2],
       Val.dict [("a", Val.int 3)]] := by
  exact (tail_trim_rule.2.1 (Val.int 1) (Val.dict []) (Val.str "t")
    (Val.list [Val.int 2]) (Val.dict [("a", Val.int 3)])).1
    ⟨by simp, by simp [pyTruthy]⟩

/-- C10: for every variant with optional tail fields, a message constructed
with non-empty kwargs and absent args marshals to the full-length wire
form holding the absent marker None at the args position, and unmarshaling
that wire form yields a message with args absent and the same kwargs. -/
theorem kwargs_without_args_roundtrip :
    (∀ rt rid d e es, es ≠ [] →
      (Error.init rt rid d e Val.none (Val.dict es)).marshal =
        [Val.int 8, Val.int rt.value, rid, d, e, Val.none, Val.dict es] ∧
      Error.unmarshal [Val.int 8, Val.int rt.value, rid, d, e, Val.none, Val.dict es] =
        Except.ok (some (Error.init rt rid d e Val.none (Val.dict es)))) ∧
    (∀ rid o t es, es ≠ [] →
      (Publish.init rid o t Val.none (Val.dict es)).marshal =
        [Val.int 16, rid, o, t, Val.none, Val.dict es] ∧
      Publish.unmarshal [Val.int 16, rid, o, t, Val.none, Val.dict es] =
        Except.ok (Publish.init rid o t Val.none (Val.dict es))) ∧
    (∀ sid pid d es, es ≠ [] →
      (Event.init sid pid d Val.none (Val.dict es)).marshal =
        [Val.int 36, sid, pid, d, Val.none, Val.dict es] ∧
      Event.unmarshal [Val.int 36, sid, pid, d, Val.none, Val.dict es] =
        Except.ok (Event.init sid pid d Val.none (Val.dict es))) ∧
    (∀ rid o p es, es ≠ [] →
      (Call.init rid o p Val.none (Val.dict es)).marshal =
        [Val.int 48, rid, o, p, Val.none, Val.dict es] ∧
      Call.unmarshal [Val.int 48, rid, o, p, Val.none, Val.dict es] =
        Except.ok (Call.init rid o p Val.none (Val.dict es))) ∧
    (∀ rid d es, es ≠ [] →
      (Result.init rid d Val.none (Val.dict es)).marshal =
        [Val.int 50, rid, d, Val.none, Val.dict es] ∧
      Result.unmarshal [Val.int 50, rid, d, Val.none, Val.dict es] =
        Except.ok (Result.init rid d Val.none (Val.dict es))) ∧
    (∀ rid regid d es, es ≠ [] →
      (Invocation.init rid regid d Val.none (Val.dict es)).marshal =
        [Val.int 68, rid, regid, d, Val.none, Val.dict es] ∧
      Invocation.unmarshal [Val.int 68, rid, regid, d, Val.none, Val.dict es] =
        Except.ok (Invocation.init rid regid d Val.none (Val.dict es))) ∧
    (∀ rid o es, es ≠ [] →
      (Yield.init rid o Val.none (Val.dict es)).marshal =
        [Val.int 70, rid, o, Val.none, Val.dict es] ∧
      Yield.unmarshal [Val.int 70, rid, o, Val.none, Val.dict es] =
        Except.ok (Yield.init rid o Val.none (Val.dict es))) := by
  refine ⟨fun rt rid d e es hne => ⟨?_, by cases rt <;> rfl⟩,
    fun rid o t es hne => ⟨?_, rfl⟩,
    fun sid pid d es hne => ⟨?_, rfl⟩, fun rid o p es hne => ⟨?_, rfl⟩,
    fun rid d es hne => ⟨?_, rfl⟩, fun rid regid d es hne => ⟨?_, rfl⟩,
    fun rid o es hne => ⟨?_, rfl⟩⟩
  all_goals
    simp [Error.marshal, Error.init, Publish.marshal, Publish.init, Event.marshal,
      Event.init, Call.marshal, Call.init, Result.marshal, Result.init,
      Invocation.marshal, Invocation.init, Yield.marshal, Yield.init, MsgType.value,
      (pyTruthy_dict_iff es).mpr hne]

/-- C10 witness: the kwargs-without-args round-trip applied at a concrete
non-empty kwargs dictionary. -/
theorem kwargs_without_args_roundtrip_witness :
    Publish.unmarshal [Val.int 16, Val.int 1, Val.dict [], Val.str "t", Val.none,
        Val.dict [("a", Val.int 3)]] =
      Except.ok (Publish.init (Val.int 1) (Val.dict []) (Val.str "t") Val.none
        (Val.dict [("a", Val.int 3)])) := by
  exact (kwargs_without_args_roundtrip.2.1 (Val.int 1) (Val.dict []) (Val.str "t")
    [("a", Val.int 3)] (by simp)).2

/-- C1: for every message variant, a successfully constructed message whose
optional args and kwargs fields are each absent or a non-empty collection
round-trips: unmarshal of marshal succeeds and yields the identical
message.  For Hello and Welcome this holds under the precondition that
construction succeeded (valid roles). -/
theorem roundtrip_marshal_unmarshal :
    (∀ realm details m, Hello.init realm details = Except.ok m →
      Hello.unmarshal m.marshal = Except.ok m) ∧
    (∀ s details m, Welcome.init s details = Except.ok m →
      Welcome.unmarshal m.marshal = Except.ok m) ∧
    (∀ d r, Abort.unmarshal (Abort.init d r).marshal = Except.ok (Abort.init d r)) ∧
    (∀ d r, Goodbye.unmarshal (Goodbye.init d r).marshal = Except.ok (Goodbye.init d r)) ∧
    (∀ rt rid d e a k, absentOrNonemptySeq a → absentOrNonemptyMap k →
      Error.unmarshal (Error.init rt rid d e a k).marshal =
        Except.ok (some (Error.init rt rid d e a k))) ∧
    (∀ rid o t a k, absentOrNonemptySeq a → absentOrNonemptyMap k →
      Publish.unmarshal (Publish.init rid o t a k).marshal =
        Except.ok (Publish.init rid o t a k)) ∧
    (∀ rid pid, Published.unmarshal (Published.init rid pid).marshal =
      Except.ok (Published.init rid pid)) ∧
    (∀ rid o t, Subscribe.unmarshal (Subscribe.init rid o t).marshal =
      Except.ok (Subscribe.init rid o t)) ∧
    (∀ rid sid, Subscribed.unmarshal (Subscribed.init rid sid).marshal =
      Except.ok (Subscribed.init rid sid)) ∧
    (∀ rid sid, Unsubscribe.unmarshal (Unsubscribe.init rid sid).marshal =
      Except.ok (Unsubscribe.init rid sid)) ∧
    (∀ rid, Unsubscribed.unmarshal (Unsubscribed.init rid).marshal =
      Except.ok (Unsubscribed.init rid)) ∧
    (∀ sid pid d a k, absentOrNonemptySeq a → absentOrNonemptyMap k →
      Event.unmarshal (Event.init sid pid d a k).marshal =
        Except.ok (Event.init sid pid d a k)) ∧
    (∀ rid o p a k, absentOrNonemptySeq a → absentOrNonemptyMap k →
      Call.unmarshal (Call.init rid o p a k).marshal =
        Except.ok (Call.init rid o p a k)) ∧
    (∀ rid d a k, absentOrNonemptySeq a → absentOrNonemptyMap k →
      Result.unmarshal (Result.init rid d a k).marshal =
        Except.ok (Result.init rid d a k)) ∧
    (∀ rid o p, Register.unmarshal (Register.init rid o p).marshal =
      Except.ok (Register.init rid o p)) ∧
    (∀ rid regid, Registered.unmarshal (Registered.init rid regid).marshal =
      Except.ok (Registered.init rid regid)) ∧
    (∀ rid regid, Unregister.unmarshal (Unregister.init rid regid).marshal =
      Except.ok (Unregister.init rid regid)) ∧
    (∀ rid, Unregistered.unmarshal (Unregistered.init rid).marshal =
      Except.ok (Unregistered.init rid)) ∧
    (∀ rid regid d a k, absentOrNonemptySeq a → absentOrNonemptyMap k →
      Invocation.unmarshal (Invocation.init rid regid d a k).marshal =
        Except.ok (Invocation.init rid regid d a k)) ∧
    (∀ rid o a k, absentOrNonemptySeq a → absentOrNonemptyMap k →
      Yield.unmarshal (Yield.init rid o a k).marshal =
        Except.ok (Yield.init rid o a k)) := by
  refine ⟨?_, ?_, fun d r => rfl, fun d r => rfl, ?_, ?_, fun a b => rfl,
    fun a b c => rfl, fun a b => rfl, fun a b => rfl, fun a => rfl, ?_, ?_, ?_,
    fun a b c => rfl, fun a b => rfl, fun a b => rfl, fun a => rfl, ?_, ?_⟩
  · intro realm details m h
    have hm := hello_init_ok realm details m h
    subst hm
    simpa [Hello.unmarshal, Hello.marshal, pyIndex, exBind_ok, valEqInt,
      MsgType.value] using h
  · intro s details m h
    have hm := welcome_init_ok s details m h
    subst hm
    simpa [Welcome.unmarshal, Welcome.marshal, pyIndex, exBind_ok, valEqInt,
      MsgType.value] using h
  · intro rt rid d e a k ha hk
    rcases ha with rfl | ⟨xs, hxs, rfl⟩ <;> rcases hk with rfl | ⟨es, hes, rfl⟩
    · cases rt <;> rfl
    · have hm : (Error.init rt rid d e Val.none (Val.dict es)).marshal =
          [Val.int 8, Val.int rt.value, rid, d, e, Val.none, Val.dict es] := by
        simp [Error.marshal, Error.init, (pyTruthy_dict_iff es).mpr hes, MsgType.value]
      rw [hm]
      cases rt <;> rfl
    · have hm : (Error.init rt rid d e (Val.list xs) Val.none).marshal =
          [Val.int 8, Val.int rt.value, rid, d, e, Val.list xs] := by
        simp [Error.marshal, Error.init, (pyTruthy_list_iff xs).mpr hxs, hxs,
          pyTruthy_none_eq, MsgType.value]
      rw [hm]
      cases rt <;> rfl
    · have hm : (Error.init rt rid d e (Val.list xs) (Val.dict es)).marshal =
          [Val.int 8, Val.int rt.value, rid, d, e, Val.list xs, Val.dict es] := by
        simp [Error.marshal, Error.init, (pyTruthy_dict_iff es).mpr hes, MsgType.value]
      rw [hm]
      cases rt <;> rfl
  · intro rid o t a k ha hk
    rcases ha with rfl | ⟨xs, hxs, rfl⟩ <;> rcases hk with rfl | ⟨es, hes, rfl⟩
    · rfl
    · have hm : (Publish.init rid o t Val.none (Val.dict es)).marshal = [Val.int 16, rid, o, t, Val.none, Val.dict es] := by
        simp [Publish.marshal, Publish.init, (pyTruthy_dict_iff es).mpr hes, MsgType.value]
      rw [hm]; rfl
    · have hm : (Publish.init rid o t (Val.list xs) Val.none).marshal = [Val.int 16, rid, o, t, Val.list xs] := by
        simp [Publish.marshal, Publish.init, (pyTruthy_list_iff xs).mpr hxs, hxs,
          pyTruthy_none_eq, MsgType.value]
      rw [hm]; rfl
    · have hm : (Publish.init rid o t (Val.list xs) (Val.dict es)).marshal = [Val.int 16, rid, o, t, Val.list xs, Val.dict es] := by
        simp [Publish.marshal, Publish.init, (pyTruthy_dict_iff es).mpr hes, MsgType.value]
      rw [hm]; rfl
  · intro sid pid d a k ha hk
    rcases ha with rfl | ⟨xs, hxs, rfl⟩ <;> rcases hk with rfl | ⟨es, hes, rfl⟩
    · rfl
    · have hm : (Event.init sid pid d Val.none (Val.dict es)).marshal = [Val.int 36, sid, pid, d, Val.none, Val.dict es] := by
        simp [Event.marshal, Event.init, (pyTruthy_dict_iff es).mpr hes, MsgType.value]
      rw [hm]; rfl
    · have hm : (Event.init sid pid d (Val.list xs) Val.none).marshal = [Val.int 36, sid, pid, d, Val.list xs] := by
        simp [Event.marshal, Event.init, (pyTruthy_list_iff xs).mpr hxs, hxs,
          pyTruthy_none_eq, MsgType.value]
      rw [hm]; rfl
    · have hm : (Event.init sid pid d (Val.list xs) (Val.dict es)).marshal = [Val.int 36, sid, pid, d, Val.list xs, Val.dict es] := by
        simp [Event.marshal, Event.init, (pyTruthy_dict_iff es).mpr hes, MsgType.value]
      rw [hm]; rfl
  · intro rid o p a k ha hk
    rcases ha with rfl | ⟨xs, hxs, rfl⟩ <;> rcases hk with rfl | ⟨es, hes, rfl⟩
    · rfl
    · have hm : (Call.init rid o p Val.none (Val.dict es)).marshal = [Val.int 48, rid, o, p, Val.none, Val.dict es] := by
        simp [Call.marshal, Call.init, (pyTruthy_dict_iff es).mpr hes, MsgType.value]
      rw [hm]; rfl
    · have hm : (Call.init rid o p (Val.list xs) Val.none).marshal = [Val.int 48, rid, o, p, Val.list xs] := by
        simp [Call.marshal, Call.init, (pyTruthy_list_iff xs).mpr hxs, hxs,
          pyTruthy_none_eq, MsgType.value]
      rw [hm]; rfl
    · have hm : (Call.init rid o p (Val.list xs) (Val.dict es)).marshal = [Val.int 48, rid, o, p, Val.list xs, Val.dict es] := by
        simp [Call.marshal, Call.init, (pyTruthy_dict_iff es).mpr hes, MsgType.value]
      rw [hm]; rfl
  · intro rid d a k ha hk
    rcases ha with rfl | ⟨xs, hxs, rfl⟩ <;> rcases hk with rfl | ⟨es, hes, rfl⟩
    · rfl
    · have hm : (Result.init rid d Val.none (Val.dict es)).marshal = [Val.int 50, rid, d, Val.none, Val.dict es] := by
        simp [Result.marshal, Result.init, (pyTruthy_dict_iff es).mpr hes, MsgType.value]
      rw [hm]; rfl
    · have hm : (Result.init rid d (Val.list xs) Val.none).marshal = [Val.int 50, rid, d, Val.list xs] := by
        simp [Result.marshal, Result.init, (pyTruthy_list_iff xs).mpr hxs, hxs,
          pyTruthy_none_eq, MsgType.value]
      rw [hm]; rfl
    · have hm : (Result.init rid d (Val.list xs) (Val.dict es)).marshal = [Val.int 50, rid, d, Val.list xs, Val.dict es] := by
        simp [Result.marshal, Result.init, (pyTruthy_dict_iff es).mpr hes, MsgType.value]
      rw [hm]; rfl
  · intro rid regid d a k ha hk
    rcases ha with rfl | ⟨xs, hxs, rfl⟩ <;> rcases hk with rfl | ⟨es, hes, rfl⟩
    · rfl
    · have hm : (Invocation.init rid regid d Val.none (Val.dict es)).marshal = [Val.int 68, rid, regid, d, Val.none, Val.dict es] := by
        simp [Invocation.marshal, Invocation.init, (pyTruthy_dict_iff es).mpr hes, MsgType.value]
      rw [hm]; rfl
    · have hm : (Invocation.init rid regid d (Val.list xs) Val.none).marshal = [Val.int 68, rid, regid, d, Val.list xs] := by
        simp [Invocation.marshal, Invocation.init, (pyTruthy_list_iff xs).mpr hxs, hxs,
          pyTruthy_none_eq, MsgType.value]
      rw [hm]; rfl
    · have hm : (Invocation.init rid regid d (Val.list xs) (Val.dict es)).marshal = [Val.int 68, rid, regid, d, Val.list xs, Val.dict es] := by
        simp [Invocation.marshal, Invocation.init, (pyTruthy_dict_iff es).mpr hes, MsgType.value]
      rw [hm]; rfl
  · intro rid o a k ha hk
    rcases ha with rfl | ⟨xs, hxs, rfl⟩ <;> rcases hk with rfl | ⟨es, hes, rfl⟩
    · rfl
    · have hm : (Yield.init rid o Val.none (Val.dict es)).marshal = [Val.int 70, rid, o, Val.none, Val.dict es] := by
        simp [Yield.marshal, Yield.init, (pyTruthy_dict_iff es).mpr hes, MsgType.value]
      rw [hm]; rfl
    · have hm : (Yield.init rid o (Val.list xs) Val.none).marshal = [Val.int 70, rid, o, Val.list xs] := by
        simp [Yield.marshal, Yield.init, (pyTruthy_list_iff xs).mpr hxs, hxs,
          pyTruthy_none_eq, MsgType.value]
      rw [hm]; rfl
    · have hm : (Yield.init rid o (Val.list xs) (Val.dict es)).marshal = [Val.int 70, rid, o, Val.list xs, Val.dict es] := by
        simp [Yield.marshal, Yield.init, (pyTruthy_dict_iff es).mpr hes, MsgType.value]
      rw [hm]; rfl

/-- C1 witness: the round-trip applied at a concrete valid Hello and a
concrete Publish with non-empty args and kwargs, discharging the
hypotheses. -/
theorem roundtrip_marshal_unmarshal_witness :
    Hello.unmarshal [Val.int 1, Val.str "realm1",
        Val.dict [("roles", Val.list [Val.str "caller"])]] =
      Except.ok { type := MsgType.HELLO, realm := Val.str "realm1",
                  details := Val.dict [("roles", Val.list [Val.str "caller"])] } ∧
    Publish.unmarshal (Publish.init (Val.int 5) (Val.dict []) (Val.str "t")
        (Val.list [Val.int 2]) (Val.dict [("a", Val.int 3)])).marshal =
      Except.ok (Publish.init (Val.int 5) (Val.dict []) (Val.str "t")
        (Val.list [Val.int 2]) (Val.dict [("a", Val.int 3)])) := by
  constructor
  · exact roundtrip_marshal_unmarshal.1 (Val.str "realm1")
      (Val.dict [("roles", Val.list [Val.str "caller"])]) _ rfl
  · exact roundtrip_marshal_unmarshal.2.2.2.2.2.1 (Val.int 5) (Val.dict [])
      (Val.str "t") (Val.list [Val.int 2]) (Val.dict [("a", Val.int 3)])
      (Or.inr ⟨[Val.int 2], by simp, rfl⟩) (Or.inr ⟨[("a", Val.int 3)], by simp, rfl⟩)

/-- C2 counterexample: Error.unmarshal applied to a wire form whose element
0 is not the ERROR tag does not fail with a decode error; it returns None. -/
theorem wrong_tag_error_returns_none_cx :
    Error.unmarshal [Val.int 99, Val.int 32, Val.int 1, Val.dict [],
      Val.str "wamp.error.not_authorized"] = Except.ok Option.none := rfl

/-- C2 (amended): every variant except Error rejects a wire form whose
element 0 does not equal its fixed tag by raising ValueError with message
Invalid message; Error.unmarshal instead falls off the end and returns
None.  In particular the concrete Subscribe wrong-tag form fails with a
decode error. -/
theorem wrong_tag_rejection :
    (∀ v rest, v ≠ Val.int 1 →
      Hello.unmarshal (v :: rest) = Except.error (PyErr.valueError "Invalid message")) ∧
    (∀ v rest, v ≠ Val.int 2 →
      Welcome.unmarshal (v :: rest) = Except.error (PyErr.valueError "Invalid message")) ∧
    (∀ v rest, v ≠ Val.int 3 →
      Abort.unmarshal (v :: rest) = Except.error (PyErr.valueError "Invalid message")) ∧
    (∀ v rest, v ≠ Val.int 6 →
      Goodbye.unmarshal (v :: rest) = Except.error (PyErr.valueError "Invalid message")) ∧
    (∀ v rest, v ≠ Val.int 16 →
      Publish.unmarshal (v :: rest) = Except.error (PyErr.valueError "Invalid message")) ∧
    (∀ v rest, v ≠ Val.int 17 →
      Published.unmarshal (v :: rest) = Except.error (PyErr.valueError "Invalid message")) ∧
    (∀ v rest, v ≠ Val.int 32 →
      Subscribe.unmarshal (v :: rest) = Except.error (PyErr.valueError "Invalid message")) ∧
    (∀ v rest, v ≠ Val.int 33 →
      Subscribed.unmarshal (v :: rest) = Except.error (PyErr.valueError "Invalid message")) ∧
    (∀ v rest, v ≠ Val.int 34 →
      Unsubscribe.unmarshal (v :: rest) = Except.error (PyErr.valueError "Invalid message")) ∧
    (∀ v rest, v ≠ Val.int 35 →
      Unsubscribed.unmarshal (v :: rest) = Except.error (PyErr.valueError "Invalid message")) ∧
    (∀ v rest, v ≠ Val.int 36 →
      Event.unmarshal (v :: rest) = Except.error (PyErr.valueError "Invalid message")) ∧
    (∀ v rest, v ≠ Val.int 48 →
      Call.unmarshal (v :: rest) = Except.error (PyErr.valueError "Invalid message")) ∧
    (∀ v rest, v ≠ Val.int 50 →
      Result.unmarshal (v :: rest) = Except.error (PyErr.valueError "Invalid message")) ∧
    (∀ v rest, v ≠ Val.int 64 →
      Register.unmarshal (v :: rest) = Except.error (PyErr.valueError "Invalid message")) ∧
    (∀ v rest, v ≠ Val.int 65 →
      Registered.unmarshal (v :: rest) = Except.error (PyErr.valueError "Invalid message")) ∧
    (∀ v rest, v ≠ Val.int 66 →
      Unregister.unmarshal (v :: rest) = Except.error (PyErr.valueError "Invalid message")) ∧
    (∀ v rest, v ≠ Val.int 67 →
      Unregistered.unmarshal (v :: rest) = Except.error (PyErr.valueError "Invalid message")) ∧
    (∀ v rest, v ≠ Val.int 68 →
      Invocation.unmarshal (v :: rest) = Except.error (PyErr.valueError "Invalid message")) ∧
    (∀ v rest, v ≠ Val.int 70 →
      Yield.unmarshal (v :: rest) = Except.error (PyErr.valueError "Invalid message")) ∧
    (∀ v rest, v ≠ Val.int 8 →
      Error.unmarshal (v :: rest) = Except.ok Option.none) ∧
    Subscribe.unmarshal [Val.int 99, Val.int 1, Val.dict [], Val.str "x"] =
      Except.error (PyErr.valueError "Invalid message") := by
  refine ⟨?_, ?_, ?_, ?_, ?_, ?_, ?_, ?_, ?_, ?_, ?_, ?_, ?_, ?_, ?_, ?_, ?_, ?_, ?_,
    ?_, rfl⟩
  all_goals
    intro v rest h
  all_goals
    simp [Hello.unmarshal, Welcome.unmarshal, Abort.unmarshal, Goodbye.unmarshal,
      Publish.unmarshal, Published.unmarshal, Subscribe.unmarshal, Subscribed.unmarshal,
      Unsubscribe.unmarshal, Unsubscribed.unmarshal, Event.unmarshal, Call.unmarshal,
      Result.unmarshal, Register.unmarshal, Registered.unmarshal, Unregister.unmarshal,
      Unregistered.unmarshal, Invocation.unmarshal, Yield.unmarshal, Error.unmarshal,
      pyIndex, exBind_ok, MsgType.value, (valEqInt_false_iff v _).mpr h]

/-- C2 witness: the wrong-tag rejection applied at a concrete non-matching
tag value, discharging the disequality hypothesis. -/
theorem wrong_tag_rejection_witness :
    Hello.unmarshal [Val.int 99, Val.str "realm1", Val.dict []] =
      Except.error (PyErr.valueError "Invalid message") := by
  exact wrong_tag_rejection.1 (Val.int 99) [Val.str "realm1", Val.dict []] (by simp)

/-- C3: Hello construction fails with a ValueError exactly when the details
dictionary has no roles key, an empty roles collection, or a role outside
the client role set; on success the details are stored unchanged and
marshal yields the tag-1 three-element form.  The same holds for Welcome
with the router role set and the tag-2 form.  Every other variant
constructor performs no field validation: it is total and stores its
arguments unchanged.  The roles-iterability hypothesis keeps the statement
inside the domain where the source compares roles at all. -/
theorem hello_welcome_validation :
    (∀ realm d,
      (∀ v, List.lookup "roles" d = some v → ∃ xs, pyIter v = Except.ok xs) →
      ((∃ e, Hello.init realm (Val.dict d) = Except.error e) ↔
        (List.lookup "roles" d = Option.none ∨
         ∃ v xs, List.lookup "roles" d = some v ∧ pyIter v = Except.ok xs ∧
           (xs = [] ∨ ∃ r ∈ xs, (valEqStr r "publisher" || valEqStr r "subscriber" ||
             valEqStr r "caller" || valEqStr r "callee") = false))) ∧
      (∀ m, Hello.init realm (Val.dict d) = Except.ok m →
        m.details = Val.dict d ∧ m.realm = realm ∧
        m.marshal = [Val.int 1, realm, Val.dict d])) ∧
    (∀ s d,
      (∀ v, List.lookup "roles" d = some v → ∃ xs, pyIter v = Except.ok xs) →
      ((∃ e, Welcome.init s (Val.dict d) = Except.error e) ↔
        (List.lookup "roles" d = Option.none ∨
         ∃ v xs, List.lookup "roles" d = some v ∧ pyIter v = Except.ok xs ∧
           (xs = [] ∨ ∃ r ∈ xs, (valEqStr r "dealer" || valEqStr r "broker") = false))) ∧
      (∀ m, Welcome.init s (Val.dict d) = Except.ok m →
        m.details = Val.dict d ∧ m.session = s ∧
        m.marshal = [Val.int 2, s, Val.dict d])) ∧
    (∀ d r, Abort.init d r = { type := MsgType.ABORT, details := d, reason := r }) ∧
    (∀ d r, Goodbye.init d r = { type := MsgType.GOODBYE, details := d, reason := r }) ∧
    (∀ rt rid d e a k, Error.init rt rid d e a k =
      { type := MsgType.ERROR, request_type := rt, request_id := rid, details := d,
        error := e, args := a, kwargs := k }) ∧
    (∀ rid o t a k, Publish.init rid o t a k =
      { type := MsgType.PUBLISH, request_id := rid, options := o, topic := t,
        args := a, kwargs := k }) ∧
    (∀ rid pid, Published.init rid pid =
      { type := MsgType.PUBLISHED, request_id := rid, publication_id := pid }) ∧
    (∀ rid o t, Subscribe.init rid o t =
      { type := MsgType.SUBSCRIBE, request_id := rid, options := o, topic := t }) ∧
    (∀ rid sid, Subscribed.init rid sid =
      { type := MsgType.SUBSCRIBED, request_id := rid, subscription_id := sid }) ∧
    (∀ rid sid, Unsubscribe.init rid sid =
      { type := MsgType.UNSUBSCRIBE, request_id := rid, subscription_id := sid }) ∧
    (∀ rid, Unsubscribed.init rid =
      { type := MsgType.UNSUBSCRIBED, request_id := rid }) ∧
    (∀ sid pid d a k, Event.init sid pid d a k =
      { type := MsgType.EVENT, subscription_id := sid, publication_id := pid,
        details := d, args := a, kwargs := k }) ∧
    (∀ rid o p a k, Call.init rid o p a k =
      { type := MsgType.CALL, request_id := rid, options := o, procedure := p,
        args := a, kwargs := k }) ∧
    (∀ rid d a k, Result.init rid d a k =
      { type := MsgType.RESULT, request_id := rid, details := d, args := a,
        kwargs := k }) ∧
    (∀ rid o p, Register.init rid o p =
      { type := MsgType.REGISTER, request_id := rid, options := o, procedure := p }) ∧
    (∀ rid regid, Registered.init rid regid =
      { type := MsgType.REGISTERED, request_id := rid, registration_id := regid }) ∧
    (∀ rid regid, Unregister.init rid regid =
      { type := MsgType.UNREGISTER, request_id := rid, registration_id := regid }) ∧
    (∀ rid, Unregistered.init rid =
      { type := MsgType.UNREGISTERED, request_id := rid }) ∧
    (∀ rid regid d a k, Invocation.init rid regid d a k =
      { type := MsgType.INVOCATION, request_id := rid, registration_id := regid,
        details := d, args := a, kwargs := k }) ∧
    (∀ rid o a k, Yield.init rid o a k =
      { type := MsgType.YIELD, request_id := rid, options := o, args := a,
        kwargs := k }) := by
  refine ⟨?_, ?_, fun d r => rfl, fun d r => rfl, fun rt rid d e a k => rfl,
    fun rid o t a k => rfl, fun rid pid => rfl, fun rid o t => rfl, fun rid sid => rfl,
    fun rid sid => rfl, fun rid => rfl, fun sid pid d a k => rfl, fun rid o p a k => rfl,
    fun rid d a k => rfl, fun rid o p => rfl, fun rid regid => rfl, fun rid regid => rfl,
    fun rid => rfl, fun rid regid d a k => rfl, fun rid o a k => rfl⟩
  · intro realm d hiter
    cases hl : List.lookup "roles" d with
    | none =>
      have hinit : Hello.init realm (Val.dict d) =
          Except.error (PyErr.valueError "Invalid message details") := by
        unfold Hello.init
        rw [show pyDictGet (Val.dict d) "roles" = Except.ok Val.none by
          simp [pyDictGet, hl]]
        rw [exBind_ok]
        rfl
      refine ⟨iff_of_true ⟨_, hinit⟩ (Or.inl rfl), fun m hm => ?_⟩
      rw [hinit] at hm
      simp at hm
    | some v =>
      obtain ⟨xs, hxs⟩ := hiter v hl
      have hget : pyDictGet (Val.dict d) "roles" = Except.ok v := by simp [pyDictGet, hl]
      have htr := pyTruthy_of_iter v xs hxs
      by_cases hxe : xs = []
      · have hinit : Hello.init realm (Val.dict d) =
            Except.error (PyErr.valueError "Invalid message details") := by
          unfold Hello.init
          rw [hget, exBind_ok, if_neg (by simp [htr, hxe])]
        refine ⟨iff_of_true ⟨_, hinit⟩ (Or.inr ⟨v, xs, rfl, hxs, Or.inl hxe⟩),
          fun m hm => ?_⟩
        rw [hinit] at hm
        simp at hm
      · have htv : pyTruthy v = true := by rw [htr]; simp [hxe]
        cases hall : xs.all (fun r => valEqStr r "publisher" || valEqStr r "subscriber" ||
            valEqStr r "caller" || valEqStr r "callee") with
        | true =>
          have hinit : Hello.init realm (Val.dict d) = Except.ok
              { type := MsgType.HELLO, realm := realm, details := Val.dict d } := by
            unfold Hello.init
            rw [hget, exBind_ok, if_pos htv, hxs, exBind_ok, if_pos hall]
          refine ⟨iff_of_false ?_ ?_, fun m hm => ?_⟩
          · rintro ⟨e, he⟩
            rw [hinit] at he
            simp at he
          · rintro (h1 | ⟨v2, xs2, hv2, hxs2, hbad⟩)
            · simp at h1
            · injection hv2 with hv2
              subst hv2
              rw [hxs] at hxs2
              injection hxs2 with hxs2
              subst hxs2
              rcases hbad with h2 | ⟨r, hr, hfalse⟩
              · exact hxe h2
              · have hpr := List.all_eq_true.mp hall r hr
                rw [hpr] at hfalse
                simp at hfalse
          · rw [hinit] at hm
            injection hm with hm
            subst hm
            exact ⟨rfl, rfl, rfl⟩
        | false =>
          have hinit : Hello.init realm (Val.dict d) =
              Except.error (PyErr.valueError "Invalid message roles") := by
            unfold Hello.init
            rw [hget, exBind_ok, if_pos htv, hxs, exBind_ok, if_neg (by simp [hall])]
          obtain ⟨r, hr, hf0⟩ := List.all_eq_false.mp hall
          have hf : (valEqStr r "publisher" || valEqStr r "subscriber" ||
              valEqStr r "caller" || valEqStr r "callee") = false := by
            revert hf0
            cases valEqStr r "publisher" || valEqStr r "subscriber" ||
              valEqStr r "caller" || valEqStr r "callee" <;> simp
          refine ⟨iff_of_true ⟨_, hinit⟩
            (Or.inr ⟨v, xs, rfl, hxs, Or.inr ⟨r, hr, hf⟩⟩), fun m hm => ?_⟩
          rw [hinit] at hm
          simp at hm
  · intro s d hiter
    cases hl : List.lookup "roles" d with
    | none =>
      have hinit : Welcome.init s (Val.dict d) =
          Except.error (PyErr.valueError "Invalid message details") := by
        unfold Welcome.init
        rw [show pyDictGet (Val.dict d) "roles" = Except.ok Val.none by
          simp [pyDictGet, hl]]
        rw [exBind_ok]
        rfl
      refine ⟨iff_of_true ⟨_, hinit⟩ (Or.inl rfl), fun m hm => ?_⟩
      rw [hinit] at hm
      simp at hm
    | some v =>
      obtain ⟨xs, hxs⟩ := hiter v hl
      have hget : pyDictGet (Val.dict d) "roles" = Except.ok v := by simp [pyDictGet, hl]
      have htr := pyTruthy_of_iter v xs hxs
      by_cases hxe : xs = []
      · have hinit : Welcome.init s (Val.dict d) =
            Except.error (PyErr.valueError "Invalid message details") := by
          unfold Welcome.init
          rw [hget, exBind_ok, if_neg (by simp [htr, hxe])]
        refine ⟨iff_of_true ⟨_, hinit⟩ (Or.inr ⟨v, xs, rfl, hxs, Or.inl hxe⟩),
          fun m hm => ?_⟩
        rw [hinit] at hm
        simp at hm
      · have htv : pyTruthy v = true := by rw [htr]; simp [hxe]
        cases hall : xs.all (fun r => valEqStr r "dealer" || valEqStr r "broker") with
        | true =>
          have hinit : Welcome.init s (Val.dict d) = Except.ok
              { type := MsgType.WELCOME, session := s, details := Val.dict d } := by
            unfold Welcome.init
            rw [hget, exBind_ok, if_pos htv, hxs, exBind_ok, if_pos hall]
          refine ⟨iff_of_false ?_ ?_, fun m hm => ?_⟩
          · rintro ⟨e, he⟩
            rw [hinit] at he
            simp at he
          · rintro (h1 | ⟨v2, xs2, hv2, hxs2, hbad⟩)
            · simp at h1
            · injection hv2 with hv2
              subst hv2
              rw [hxs] at hxs2
              injection hxs2 with hxs2
              subst hxs2
              rcases hbad with h2 | ⟨r, hr, hfalse⟩
              · exact hxe h2
              · have hpr := List.all_eq_true.mp hall r hr
                rw [hpr] at hfalse
                simp at hfalse
          · rw [hinit] at hm
            injection hm with hm
            subst hm
            exact ⟨rfl, rfl, rfl⟩
        | false =>
          have hinit : Welcome.init s (Val.dict d) =
              Except.error (PyErr.valueError "Invalid message details") := by
            unfold Welcome.init
            rw [hget, exBind_ok, if_pos htv, hxs, exBind_ok, if_neg (by simp [hall])]
          obtain ⟨r, hr, hf0⟩ := List.all_eq_false.mp hall
          have hf : (valEqStr r "dealer" || valEqStr r "broker") = false := by
            revert hf0
            cases valEqStr r "dealer" || valEqStr r "broker" <;> simp
          refine ⟨iff_of_true ⟨_, hinit⟩
            (Or.inr ⟨v, xs, rfl, hxs, Or.inr ⟨r, hr, hf⟩⟩), fun m hm => ?_⟩
          rw [hinit] at hm
          simp at hm

/-- C3 witness: the validation characterization applied at concrete
inputs: an empty details dictionary fails, discharging the iterability
hypothesis. -/
theorem hello_welcome_validation_witness :
    ∃ e, Hello.init (Val.str "realm1") (Val.dict []) = Except.error e := by
  exact ((hello_welcome_validation.1 (Val.str "realm1") []
    (fun v hv => by simp at hv)).1).mpr (Or.inl rfl)

/-- C9: every message produced by a variant constructor or by its
unmarshal carries the fixed tag of that variant in its type field, and the
head of its marshalled wire form is the fixed integer code of that tag. -/
theorem tag_integrity :
    (∀ realm details m, Hello.init realm details = Except.ok m →
      m.type = MsgType.HELLO ∧ m.marshal.head? = some (Val.int 1)) ∧
    (∀ msg m, Hello.unmarshal msg = Except.ok m →
      m.type = MsgType.HELLO ∧ m.marshal.head? = some (Val.int 1)) ∧
    (∀ s details m, Welcome.init s details = Except.ok m →
      m.type = MsgType.WELCOME ∧ m.marshal.head? = some (Val.int 2)) ∧
    (∀ msg m, Welcome.unmarshal msg = Except.ok m →
      m.type = MsgType.WELCOME ∧ m.marshal.head? = some (Val.int 2)) ∧
    (∀ d r, (Abort.init d r).type = MsgType.ABORT ∧
      (Abort.init d r).marshal.head? = some (Val.int 3)) ∧
    (∀ msg m, Abort.unmarshal msg = Except.ok m →
      m.type = MsgType.ABORT ∧ m.marshal.head? = some (Val.int 3)) ∧
    (∀ d r, (Goodbye.init d r).type = MsgType.GOODBYE ∧
      (Goodbye.init d r).marshal.head? = some (Val.int 6)) ∧
    (∀ msg m, Goodbye.unmarshal msg = Except.ok m →
      m.type = MsgType.GOODBYE ∧ m.marshal.head? = some (Val.int 6)) ∧
    (∀ rt rid d e a k, (Error.init rt rid d e a k).type = MsgType.ERROR ∧
      (Error.init rt rid d e a k).marshal.head? = some (Val.int 8)) ∧
    (∀ msg m, Error.unmarshal msg = Except.ok (some m) →
      m.type = MsgType.ERROR ∧ m.marshal.head? = some (Val.int 8)) ∧
    (∀ rid o t a k, (Publish.init rid o t a k).type = MsgType.PUBLISH ∧
      (Publish.init rid o t a k).marshal.head? = some (Val.int 16)) ∧
    (∀ msg m, Publish.unmarshal msg = Except.ok m →
      m.type = MsgType.PUBLISH ∧ m.marshal.head? = some (Val.int 16)) ∧
    (∀ rid pid, (Published.init rid pid).type = MsgType.PUBLISHED ∧
      (Published.init rid pid).marshal.head? = some (Val.int 17)) ∧
    (∀ msg m, Published.unmarshal msg = Except.ok m →
      m.type = MsgType.PUBLISHED ∧ m.marshal.head? = some (Val.int 17)) ∧
    (∀ rid o t, (Subscribe.init rid o t).type = MsgType.SUBSCRIBE ∧
      (Subscribe.init rid o t).marshal.head? = some (Val.int 32)) ∧
    (∀ msg m, Subscribe.unmarshal msg = Except.ok m →
      m.type = MsgType.SUBSCRIBE ∧ m.marshal.head? = some (Val.int 32)) ∧
    (∀ rid sid, (Subscribed.init rid sid).type = MsgType.SUBSCRIBED ∧
      (Subscribed.init rid sid).marshal.head? = some (Val.int 33)) ∧
    (∀ msg m, Subscribed.unmarshal msg = Except.ok m →
      m.type = MsgType.SUBSCRIBED ∧ m.marshal.head? = some (Val.int 33)) ∧
    (∀ rid sid, (Unsubscribe.init rid sid).type = MsgType.UNSUBSCRIBE ∧
      (Unsubscribe.init rid sid).marshal.head? = some (Val.int 34)) ∧
    (∀ msg m, Unsubscribe.unmarshal msg = Except.ok m →
      m.type = MsgType.UNSUBSCRIBE ∧ m.marshal.head? = some (Val.int 34)) ∧
    (∀ rid, (Unsubscribed.init rid).type = MsgType.UNSUBSCRIBED ∧
      (Unsubscribed.init rid).marshal.head? = some (Val.int 35)) ∧
    (∀ msg m, Unsubscribed.unmarshal msg = Except.ok m →
      m.type = MsgType.UNSUBSCRIBED ∧ m.marshal.head? = some (Val.int 35)) ∧
    (∀ sid pid d a k, (Event.init sid pid d a k).type = MsgType.EVENT ∧
      (Event.init sid pid d a k).marshal.head? = some (Val.int 36)) ∧
    (∀ msg m, Event.unmarshal msg = Except.ok m →
      m.type = MsgType.EVENT ∧ m.marshal.head? = some (Val.int 36)) ∧
    (∀ rid o p a k, (Call.init rid o p a k).type = MsgType.CALL ∧
      (Call.init rid o p a k).marshal.head? = some (Val.int 48)) ∧
    (∀ msg m, Call.unmarshal msg = Except.ok m →
      m.type = MsgType.CALL ∧ m.marshal.head? = some (Val.int 48)) ∧
    (∀ rid d a k, (Result.init rid d a k).type = MsgType.RESULT ∧
      (Result.init rid d a k).marshal.head? = some (Val.int 50)) ∧
    (∀ msg m, Result.unmarshal msg = Except.ok m →
      m.type = MsgType.RESULT ∧ m.marshal.head? = some (Val.int 50)) ∧
    (∀ rid o p, (Register.init rid o p).type = MsgType.REGISTER ∧
      (Register.init rid o p).marshal.head? = some (Val.int 64)) ∧
    (∀ msg m, Register.unmarshal msg = Except.ok m →
      m.type = MsgType.REGISTER ∧ m.marshal.head? = some (Val.int 64)) ∧
    (∀ rid regid, (Registered.init rid regid).type = MsgType.REGISTERED ∧
      (Registered.init rid regid).marshal.head? = some (Val.int 65)) ∧
    (∀ msg m, Registered.unmarshal msg = Except.ok m →
      m.type = MsgType.REGISTERED ∧ m.marshal.head? = some (Val.int 65)) ∧
    (∀ rid regid, (Unregister.init rid regid).type = MsgType.UNREGISTER ∧
      (Unregister.init rid regid).marshal.head? = some (Val.int 66)) ∧
    (∀ msg m, Unregister.unmarshal msg = Except.ok m →
      m.type = MsgType.UNREGISTER ∧ m.marshal.head? = some (Val.int 66)) ∧
    (∀ rid, (Unregistered.init rid).type = MsgType.UNREGISTERED ∧
      (Unregistered.init rid).marshal.head? = some (Val.int 67)) ∧
    (∀ msg m, Unregistered.unmarshal msg = Except.ok m →
      m.type = MsgType.UNREGISTERED ∧ m.marshal.head? = some (Val.int 67)) ∧
    (∀ rid regid d a k, (Invocation.init rid regid d a k).type = MsgType.INVOCATION ∧
      (Invocation.init rid regid d a k).marshal.head? = some (Val.int 68)) ∧
    (∀ msg m, Invocation.unmarshal msg = Except.ok m →
      m.type = MsgType.INVOCATION ∧ m.marshal.head? = some (Val.int 68)) ∧
    (∀ rid o a k, (Yield.init rid o a k).type = MsgType.YIELD ∧
      (Yield.init rid o a k).marshal.head? = some (Val.int 70)) ∧
    (∀ msg m, Yield.unmarshal msg = Except.ok m →
      m.type = MsgType.YIELD ∧ m.marshal.head? = some (Val.int 70)) := by
  refine ⟨?_, ?_, ?_, ?_, fun d r => ⟨rfl, rfl⟩, ?_, fun d r => ⟨rfl, rfl⟩, ?_, fun rt rid d e a k => ⟨rfl, error_marshal_head _⟩, ?_, fun rid o t a k => ⟨rfl, publish_marshal_head _⟩, ?_, fun rid pid => ⟨rfl, rfl⟩, ?_, fun rid o t => ⟨rfl, rfl⟩, ?_, fun rid sid => ⟨rfl, rfl⟩, ?_, fun rid sid => ⟨rfl, rfl⟩, ?_, fun rid => ⟨rfl, rfl⟩, ?_, fun sid pid d a k => ⟨rfl, event_marshal_head _⟩, ?_, fun rid o p a k => ⟨rfl, call_marshal_head _⟩, ?_, fun rid d a k => ⟨rfl, result_marshal_head _⟩, ?_, fun rid o p => ⟨rfl, rfl⟩, ?_, fun rid regid => ⟨rfl, rfl⟩, ?_, fun rid regid => ⟨rfl, rfl⟩, ?_, fun rid => ⟨rfl, rfl⟩, ?_, fun rid regid d a k => ⟨rfl, invocation_marshal_head _⟩, ?_, fun rid o a k => ⟨rfl, yield_marshal_head _⟩, ?_⟩
  · intro realm details m h
    have h2 := hello_init_ok _ _ _ h
    subst h2
    exact ⟨rfl, rfl⟩
  · intro msg m h
    simp only [Hello.unmarshal, Bind.bind, Except.bind] at h
    iterate 6 (all_goals (try split at h))
    all_goals (try simp at h)
    all_goals (have h2 := hello_init_ok _ _ _ h; subst h2; exact ⟨rfl, rfl⟩)
  · intro s details m h
    have h2 := welcome_init_ok _ _ _ h
    subst h2
    exact ⟨rfl, rfl⟩
  · intro msg m h
    simp only [Welcome.unmarshal, Bind.bind, Except.bind] at h
    iterate 6 (all_goals (try split at h))
    all_goals (try simp at h)
    all_goals (have h2 := welcome_init_ok _ _ _ h; subst h2; exact ⟨rfl, rfl⟩)
  · intro msg m h
    simp only [Abort.unmarshal, Bind.bind, Except.bind] at h
    iterate 10 (all_goals (try split at h))
    all_goals simp at h
    all_goals (subst h; exact ⟨rfl, rfl⟩)
  · intro msg m h
    simp only [Goodbye.unmarshal, Bind.bind, Except.bind] at h
    iterate 10 (all_goals (try split at h))
    all_goals simp at h
    all_goals (subst h; exact ⟨rfl, rfl⟩)
  · intro msg m h
    simp only [Error.unmarshal, Bind.bind, Except.bind] at h
    iterate 16 (all_goals (try split at h))
    all_goals simp at h
    all_goals (subst h; exact ⟨rfl, error_marshal_head _⟩)
  · intro msg m h
    simp only [Publish.unmarshal, Bind.bind, Except.bind] at h
    iterate 16 (all_goals (try split at h))
    all_goals simp at h
    all_goals (subst h; exact ⟨rfl, publish_marshal_head _⟩)
  · intro msg m h
    simp only [Published.unmarshal, Bind.bind, Except.bind] at h
    iterate 10 (all_goals (try split at h))
    all_goals simp at h
    all_goals (subst h; exact ⟨rfl, rfl⟩)
  · intro msg m h
    simp only [Subscribe.unmarshal, Bind.bind, Except.bind] at h
    iterate 10 (all_goals (try split at h))
    all_goals simp at h
    all_goals (subst h; exact ⟨rfl, rfl⟩)
  · intro msg m h
    simp only [Subscribed.unmarshal, Bind.bind, Except.bind] at h
    iterate 10 (all_goals (try split at h))
    all_goals simp at h
    all_goals (subst h; exact ⟨rfl, rfl⟩)
  · intro msg m h
    simp only [Unsubscribe.unmarshal, Bind.bind, Except.bind] at h
    iterate 10 (all_goals (try split at h))
    all_goals simp at h
    all_goals (subst h; exact ⟨rfl, rfl⟩)
  · intro msg m h
    simp only [Unsubscribed.unmarshal, Bind.bind, Except.bind] at h
    iterate 10 (all_goals (try split at h))
    all_goals simp at h
    all_goals (subst h; exact ⟨rfl, rfl⟩)
  · intro msg m h
    simp only [Event.unmarshal, Bind.bind, Except.bind] at h
    iterate 16 (all_goals (try split at h))
    all_goals simp at h
    all_goals (subst h; exact ⟨rfl, event_marshal_head _⟩)
  · intro msg m h
    simp only [Call.unmarshal, Bind.bind, Except.bind] at h
    iterate 16 (all_goals (try split at h))
    all_goals simp at h
    all_goals (subst h; exact ⟨rfl, call_marshal_head _⟩)
  · intro msg m h
    simp only [Result.unmarshal, Bind.bind, Except.bind] at h
    iterate 16 (all_goals (try split at h))
    all_goals simp at h
    all_goals (subst h; exact ⟨rfl, result_marshal_head _⟩)
  · intro msg m h
    simp only [Register.unmarshal, Bind.bind, Except.bind] at h
    iterate 10 (all_goals (try split at h))
    all_goals simp at h
    all_goals (subst h; exact ⟨rfl, rfl⟩)
  · intro msg m h
    simp only [Registered.unmarshal, Bind.bind, Except.bind] at h
    iterate 10 (all_goals (try split at h))
    all_goals simp at h
    all_goals (subst h; exact ⟨rfl, rfl⟩)
  · intro msg m h
    simp only [Unregister.unmarshal, Bind.bind, Except.bind] at h
    iterate 10 (all_goals (try split at h))
    all_goals simp at h
    all_goals (subst h; exact ⟨rfl, rfl⟩)
  · intro msg m h
    simp only [Unregistered.unmarshal, Bind.bind, Except.bind] at h
    iterate 10 (all_goals (try split at h))
    all_goals simp at h
    all_goals (subst h; exact ⟨rfl, rfl⟩)
  · intro msg m h
    simp only [Invocation.unmarshal, Bind.bind, Except.bind] at h
    iterate 16 (all_goals (try split at h))
    all_goals simp at h
    all_goals (subst h; exact ⟨rfl, invocation_marshal_head _⟩)
  · intro msg m h
    simp only [Yield.unmarshal, Bind.bind, Except.bind] at h
    iterate 16 (all_goals (try split at h))
    all_goals simp at h
    all_goals (subst h; exact ⟨rfl, yield_marshal_head _⟩)

/-- C9 witness: tag integrity applied to a concrete successfully
constructed Hello, discharging the construction hypothesis. -/
theorem tag_integrity_witness :
    ({ type := MsgType.HELLO, realm := Val.str "r",
        details := Val.dict [("roles", Val.list [Val.str "caller"])] } : Hello).type =
      MsgType.HELLO ∧
    ({ type := MsgType.HELLO, realm := Val.str "r",
        details := Val.dict [("roles", Val.list [Val.str "caller"])] } : Hello).marshal.head? =
      some (Val.int 1) := by
  exact tag_integrity.1 (Val.str "r")
    (Val.dict [("roles", Val.list [Val.str "caller"])]) _ rfl

/-- C6 counterexample: Subscribe.unmarshal succeeds on a wire form of
length five, one longer than its single documented arity, ignoring the
extra trailing element; so not every other length fails. -/
theorem fixed_arity_extra_length_cx :
    Subscribe.unmarshal [Val.int 32, Val.int 1, Val.dict [], Val.str "x",
      Val.str "extra"] =
      Except.ok { type := MsgType.SUBSCRIBE, request_id := Val.int 1,
                  options := Val.dict [], topic := Val.str "x" } := rfl

/-- C6 (amended): for each fixed-arity variant, unmarshal succeeds exactly
when the wire form carries the variant tag at element 0 and has at least
the required length; shorter forms fail and longer forms succeed with the
extra elements ignored.  Unsubscribed.unmarshal on the concrete two-element
form yields the message with just the request id. -/
theorem fixed_arity_unmarshal :
    (∀ msg, (∃ m, Published.unmarshal msg = Except.ok m) ↔
      (msg.get? 0 = some (Val.int 17) ∧ 3 ≤ msg.length)) ∧
    (∀ msg, (∃ m, Subscribed.unmarshal msg = Except.ok m) ↔
      (msg.get? 0 = some (Val.int 33) ∧ 3 ≤ msg.length)) ∧
    (∀ msg, (∃ m, Unsubscribed.unmarshal msg = Except.ok m) ↔
      (msg.get? 0 = some (Val.int 35) ∧ 2 ≤ msg.length)) ∧
    (∀ msg, (∃ m, Registered.unmarshal msg = Except.ok m) ↔
      (msg.get? 0 = some (Val.int 65) ∧ 3 ≤ msg.length)) ∧
    (∀ msg, (∃ m, Unregistered.unmarshal msg = Except.ok m) ↔
      (msg.get? 0 = some (Val.int 67) ∧ 2 ≤ msg.length)) ∧
    (∀ msg, (∃ m, Unregister.unmarshal msg = Except.ok m) ↔
      (msg.get? 0 = some (Val.int 66) ∧ 3 ≤ msg.length)) ∧
    (∀ msg, (∃ m, Subscribe.unmarshal msg = Except.ok m) ↔
      (msg.get? 0 = some (Val.int 32) ∧ 4 ≤ msg.length)) ∧
    (∀ msg, (∃ m, Register.unmarshal msg = Except.ok m) ↔
      (msg.get? 0 = some (Val.int 64) ∧ 4 ≤ msg.length)) ∧
    Unsubscribed.unmarshal [Val.int 35, Val.int 85346237] =
      Except.ok (Unsubscribed.init (Val.int 85346237)) := by
  refine ⟨?_, ?_, ?_, ?_, ?_, ?_, ?_, ?_, rfl⟩
  · intro msg
    rcases msg with _ | ⟨a, _ | ⟨b, _ | ⟨c, rest⟩⟩⟩
    · simp [Published.unmarshal, pyIndex, exBind_ok, exBind_error]
    · cases hv : valEqInt a (MsgType.PUBLISHED.value) with
      | false =>
        have hne := (valEqInt_false_iff a 17).mp hv
        simp [Published.unmarshal, pyIndex, exBind_ok, exBind_error, hv, hne]
      | true =>
        have heq := (valEqInt_true_iff a 17).mp hv
        subst heq
        simp [Published.unmarshal, pyIndex, exBind_ok, exBind_error, valEqInt,
          MsgType.value]
    · cases hv : valEqInt a (MsgType.PUBLISHED.value) with
      | false =>
        have hne := (valEqInt_false_iff a 17).mp hv
        simp [Published.unmarshal, pyIndex, exBind_ok, exBind_error, hv, hne]
      | true =>
        have heq := (valEqInt_true_iff a 17).mp hv
        subst heq
        simp [Published.unmarshal, pyIndex, exBind_ok, exBind_error, valEqInt,
          MsgType.value]
    · cases hv : valEqInt a (MsgType.PUBLISHED.value) with
      | false =>
        have hne := (valEqInt_false_iff a 17).mp hv
        simp [Published.unmarshal, pyIndex, exBind_ok, exBind_error, hv, hne]
      | true =>
        have heq := (valEqInt_true_iff a 17).mp hv
        subst heq
        simp [Published.unmarshal, pyIndex, exBind_ok, exBind_error, valEqInt,
          MsgType.value]
  · intro msg
    rcases msg with _ | ⟨a, _ | ⟨b, _ | ⟨c, rest⟩⟩⟩
    · simp [Subscribed.unmarshal, pyIndex, exBind_ok, exBind_error]
    · cases hv : valEqInt a (MsgType.SUBSCRIBED.value) with
      | false =>
        have hne := (valEqInt_false_iff a 33).mp hv
        simp [Subscribed.unmarshal, pyIndex, exBind_ok, exBind_error, hv, hne]
      | true =>
        have heq := (valEqInt_true_iff a 33).mp hv
        subst heq
        simp [Subscribed.unmarshal, pyIndex, exBind_ok, exBind_error, valEqInt,
          MsgType.value]
    · cases hv : valEqInt a (MsgType.SUBSCRIBED.value) with
      | false =>
        have hne := (valEqInt_false_iff a 33).mp hv
        simp [Subscribed.unmarshal, pyIndex, exBind_ok, exBind_error, hv, hne]
      | true =>
        have heq := (valEqInt_true_iff a 33).mp hv
        subst heq
        simp [Subscribed.unmarshal, pyIndex, exBind_ok, exBind_error, valEqInt,
          MsgType.value]
    · cases hv : valEqInt a (MsgType.SUBSCRIBED.value) with
      | false =>
        have hne := (valEqInt_false_iff a 33).mp hv
        simp [Subscribed.unmarshal, pyIndex, exBind_ok, exBind_error, hv, hne]
      | true =>
        have heq := (valEqInt_true_iff a 33).mp hv
        subst heq
        simp [Subscribed.unmarshal, pyIndex, exBind_ok, exBind_error, valEqInt,
          MsgType.value]
  · intro msg
    rcases msg with _ | ⟨a, _ | ⟨b, rest⟩⟩
    · simp [Unsubscribed.unmarshal, pyIndex, exBind_ok, exBind_error]
    · cases hv : valEqInt a (MsgType.UNSUBSCRIBED.value) with
      | false =>
        have hne := (valEqInt_false_iff a 35).mp hv
        simp [Unsubscribed.unmarshal, pyIndex, exBind_ok, exBind_error, hv, hne]
      | true =>
        have heq := (valEqInt_true_iff a 35).mp hv
        subst heq
        simp [Unsubscribed.unmarshal, pyIndex, exBind_ok, exBind_error, valEqInt,
          MsgType.value]
    · cases hv : valEqInt a (MsgType.UNSUBSCRIBED.value) with
      | false =>
        have hne := (valEqInt_false_iff a 35).mp hv
        simp [Unsubscribed.unmarshal, pyIndex, exBind_ok, exBind_error, hv, hne]
      | true =>
        have heq := (valEqInt_true_iff a 35).mp hv
        subst heq
        simp [Unsubscribed.unmarshal, pyIndex, exBind_ok, exBind_error, valEqInt,
          MsgType.value]
  · intro msg
    rcases msg with _ | ⟨a, _ | ⟨b, _ | ⟨c, rest⟩⟩⟩
    · simp [Registered.unmarshal, pyIndex, exBind_ok, exBind_error]
    · cases hv : valEqInt a (MsgType.REGISTERED.value) with
      | false =>
        have hne := (valEqInt_false_iff a 65).mp hv
        simp [Registered.unmarshal, pyIndex, exBind_ok, exBind_error, hv, hne]
      | true =>
        have heq := (valEqInt_true_iff a 65).mp hv
        subst heq
        simp [Registered.unmarshal, pyIndex, exBind_ok, exBind_error, valEqInt,
          MsgType.value]
    · cases hv : valEqInt a (MsgType.REGISTERED.value) with
      | false =>
        have hne := (valEqInt_false_iff a 65).mp hv
        simp [Registered.unmarshal, pyIndex, exBind_ok, exBind_error, hv, hne]
      | true =>
        have heq := (valEqInt_true_iff a 65).mp hv
        subst heq
        simp [Registered.unmarshal, pyIndex, exBind_ok, exBind_error, valEqInt,
          MsgType.value]
    · cases hv : valEqInt a (MsgType.REGISTERED.value) with
      | false =>
        have hne := (valEqInt_false_iff a 65).mp hv
        simp [Registered.unmarshal, pyIndex, exBind_ok, exBind_error, hv, hne]
      | true =>
        have heq := (valEqInt_true_iff a 65).mp hv
        subst heq
        simp [Registered.unmarshal, pyIndex, exBind_ok, exBind_error, valEqInt,
          MsgType.value]
  · intro msg
    rcases msg with _ | ⟨a, _ | ⟨b, rest⟩⟩
    · simp [Unregistered.unmarshal, pyIndex, exBind_ok, exBind_error]
    · cases hv : valEqInt a (MsgType.UNREGISTERED.value) with
      | false =>
        have hne := (valEqInt_false_iff a 67).mp hv
        simp [Unregistered.unmarshal, pyIndex, exBind_ok, exBind_error, hv, hne]
      | true =>
        have heq := (valEqInt_true_iff a 67).mp hv
        subst heq
        simp [Unregistered.unmarshal, pyIndex, exBind_ok, exBind_error, valEqInt,
          MsgType.value]
    · cases hv : valEqInt a (MsgType.UNREGISTERED.value) with
      | false =>
        have hne := (valEqInt_false_iff a 67).mp hv
        simp [Unregistered.unmarshal, pyIndex, exBind_ok, exBind_error, hv, hne]
      | true =>
        have heq := (valEqInt_true_iff a 67).mp hv
        subst heq
        simp [Unregistered.unmarshal, pyIndex, exBind_ok, exBind_error, valEqInt,
          MsgType.value]
  · intro msg
    rcases msg with _ | ⟨a, _ | ⟨b, _ | ⟨c, rest⟩⟩⟩
    · simp [Unregister.unmarshal, pyIndex, exBind_ok, exBind_error]
    · cases hv : valEqInt a (MsgType.UNREGISTER.value) with
      | false =>
        have hne := (valEqInt_false_iff a 66).mp hv
        simp [Unregister.unmarshal, pyIndex, exBind_ok, exBind_error, hv, hne]
      | true =>
        have heq := (valEqInt_true_iff a 66).mp hv
        subst heq
        simp [Unregister.unmarshal, pyIndex, exBind_ok, exBind_error, valEqInt,
          MsgType.value]
    · cases hv : valEqInt a (MsgType.UNREGISTER.value) with
      | false =>
        have hne := (valEqInt_false_iff a 66).mp hv
        simp [Unregister.unmarshal, pyIndex, exBind_ok, exBind_error, hv, hne]
      | true =>
        have heq := (valEqInt_true_iff a 66).mp hv
        subst heq
        simp [Unregister.unmarshal, pyIndex, exBind_ok, exBind_error, valEqInt,
          MsgType.value]
    · cases hv : valEqInt a (MsgType.UNREGISTER.value) with
      | false =>
        have hne := (valEqInt_false_iff a 66).mp hv
        simp [Unregister.unmarshal, pyIndex, exBind_ok, exBind_error, hv, hne]
      | true =>
        have heq := (valEqInt_true_iff a 66).mp hv
        subst heq
        simp [Unregister.unmarshal, pyIndex, exBind_ok, exBind_error, valEqInt,
          MsgType.value]
  · intro msg
    rcases msg with _ | ⟨a, _ | ⟨b, _ | ⟨c, _ | ⟨d, rest⟩⟩⟩⟩
    · simp [Subscribe.unmarshal, pyIndex, exBind_ok, exBind_error]
    · cases hv : valEqInt a (MsgType.SUBSCRIBE.value) with
      | false =>
        have hne := (valEqInt_false_iff a 32).mp hv
        simp [Subscribe.unmarshal, pyIndex, exBind_ok, exBind_error, hv, hne]
      | true =>
        have heq := (valEqInt_true_iff a 32).mp hv
        subst heq
        simp [Subscribe.unmarshal, pyIndex, exBind_ok, exBind_error, valEqInt,
          MsgType.value]
    · cases hv : valEqInt a (MsgType.SUBSCRIBE.value) with
      | false =>
        have hne := (valEqInt_false_iff a 32).mp hv
        simp [Subscribe.unmarshal, pyIndex, exBind_ok, exBind_error, hv, hne]
      | true =>
        have heq := (valEqInt_true_iff a 32).mp hv
        subst heq
        simp [Subscribe.unmarshal, pyIndex, exBind_ok, exBind_error, valEqInt,
          MsgType.value]
    · cases hv : valEqInt a (MsgType.SUBSCRIBE.value) with
      | false =>
        have hne := (valEqInt_false_iff a 32).mp hv
        simp [Subscribe.unmarshal, pyIndex, exBind_ok, exBind_error, hv, hne]
      | true =>
        have heq := (valEqInt_true_iff a 32).mp hv
        subst heq
        simp [Subscribe.unmarshal, pyIndex, exBind_ok, exBind_error, valEqInt,
          MsgType.value]
    · cases hv : valEqInt a (MsgType.SUBSCRIBE.value) with
      | false =>
        have hne := (valEqInt_false_iff a 32).mp hv
        simp [Subscribe.unmarshal, pyIndex, exBind_ok, exBind_error, hv, hne]
      | true =>
        have heq := (valEqInt_true_iff a 32).mp hv
        subst heq
        simp [Subscribe.unmarshal, pyIndex, exBind_ok, exBind_error, valEqInt,
          MsgType.value]
  · intro msg
    rcases msg with _ | ⟨a, _ | ⟨b, _ | ⟨c, _ | ⟨d, rest⟩⟩⟩⟩
    · simp [Register.unmarshal, pyIndex, exBind_ok, exBind_error]
    · cases hv : valEqInt a (MsgType.REGISTER.value) with
      | false =>
        have hne := (valEqInt_false_iff a 64).mp hv
        simp [Register.unmarshal, pyIndex, exBind_ok, exBind_error, hv, hne]
      | true =>
        have heq := (valEqInt_true_iff a 64).mp hv
        subst heq
        simp [Register.unmarshal, pyIndex, exBind_ok, exBind_error, valEqInt,
          MsgType.value]
    · cases hv : valEqInt a (MsgType.REGISTER.value) with
      | false =>
        have hne := (valEqInt_false_iff a 64).mp hv
        simp [Register.unmarshal, pyIndex, exBind_ok, exBind_error, hv, hne]
      | true =>
        have heq := (valEqInt_true_iff a 64).mp hv
        subst heq
        simp [Register.unmarshal, pyIndex, exBind_ok, exBind_error, valEqInt,
          MsgType.value]
    · cases hv : valEqInt a (MsgType.REGISTER.value) with
      | false =>
        have hne := (valEqInt_false_iff a 64).mp hv
        simp [Register.unmarshal, pyIndex, exBind_ok, exBind_error, hv, hne]
      | true =>
        have heq := (valEqInt_true_iff a 64).mp hv
        subst heq
        simp [Register.unmarshal, pyIndex, exBind_ok, exBind_error, valEqInt,
          MsgType.value]
    · cases hv : valEqInt a (MsgType.REGISTER.value) with
      | false =>
        have hne := (valEqInt_false_iff a 64).mp hv
        simp [Register.unmarshal, pyIndex, exBind_ok, exBind_error, hv, hne]
      | true =>
        have heq := (valEqInt_true_iff a 64).mp hv
        subst heq
        simp [Register.unmarshal, pyIndex, exBind_ok, exBind_error, valEqInt,
          MsgType.value]

/-- C6 witness: the arity characterization applied at the concrete
Unsubscribed wire form, discharging both sides of the equivalence. -/
theorem fixed_arity_unmarshal_witness :
    ∃ m, Unsubscribed.unmarshal [Val.int 35, Val.int 85346237] = Except.ok m := by
  exact (fixed_arity_unmarshal.2.2.1 [Val.int 35, Val.int 85346237]).mpr
    ⟨rfl, by simp⟩

/-- C7 counterexample: Error.unmarshal with the correct tag but a wire
form shorter than the minimum arity does not raise; it returns None. -/
theorem error_short_form_returns_none_cx :
    Error.unmarshal [Val.int 8, Val.int 32, Val.int 1, Val.dict []] =
      Except.ok Option.none := rfl

/-- C7 (amended): for every variant except Error, unmarshal applied to a
wire form carrying the correct tag but shorter than the minimum arity
raises an error synchronously (an IndexError from positional access or the
final ValueError); Error.unmarshal instead returns None on every such
form. -/
theorem short_form_decode :
    (∀ msg, msg.get? 0 = some (Val.int 1) → msg.length < 3 →
      ∃ e, Hello.unmarshal msg = Except.error e) ∧
    (∀ msg, msg.get? 0 = some (Val.int 2) → msg.length < 3 →
      ∃ e, Welcome.unmarshal msg = Except.error e) ∧
    (∀ msg, msg.get? 0 = some (Val.int 3) → msg.length < 3 →
      ∃ e, Abort.unmarshal msg = Except.error e) ∧
    (∀ msg, msg.get? 0 = some (Val.int 6) → msg.length < 3 →
      ∃ e, Goodbye.unmarshal msg = Except.error e) ∧
    (∀ msg, msg.get? 0 = some (Val.int 16) → msg.length < 4 →
      ∃ e, Publish.unmarshal msg = Except.error e) ∧
    (∀ msg, msg.get? 0 = some (Val.int 17) → msg.length < 3 →
      ∃ e, Published.unmarshal msg = Except.error e) ∧
    (∀ msg, msg.get? 0 = some (Val.int 32) → msg.length < 4 →
      ∃ e, Subscribe.unmarshal msg = Except.error e) ∧
    (∀ msg, msg.get? 0 = some (Val.int 33) → msg.length < 3 →
      ∃ e, Subscribed.unmarshal msg = Except.error e) ∧
    (∀ msg, msg.get? 0 = some (Val.int 34) → msg.length < 3 →
      ∃ e, Unsubscribe.unmarshal msg = Except.error e) ∧
    (∀ msg, msg.get? 0 = some (Val.int 35) → msg.length < 2 →
      ∃ e, Unsubscribed.unmarshal msg = Except.error e) ∧
    (∀ msg, msg.get? 0 = some (Val.int 36) → msg.length < 4 →
      ∃ e, Event.unmarshal msg = Except.error e) ∧
    (∀ msg, msg.get? 0 = some (Val.int 48) → msg.length < 4 →
      ∃ e, Call.unmarshal msg = Except.error e) ∧
    (∀ msg, msg.get? 0 = some (Val.int 50) → msg.length < 3 →
      ∃ e, Result.unmarshal msg = Except.error e) ∧
    (∀ msg, msg.get? 0 = some (Val.int 64) → msg.length < 4 →
      ∃ e, Register.unmarshal msg = Except.error e) ∧
    (∀ msg, msg.get? 0 = some (Val.int 65) → msg.length < 3 →
      ∃ e, Registered.unmarshal msg = Except.error e) ∧
    (∀ msg, msg.get? 0 = some (Val.int 66) → msg.length < 3 →
      ∃ e, Unregister.unmarshal msg = Except.error e) ∧
    (∀ msg, msg.get? 0 = some (Val.int 67) → msg.length < 2 →
      ∃ e, Unregistered.unmarshal msg = Except.error e) ∧
    (∀ msg, msg.get? 0 = some (Val.int 68) → msg.length < 4 →
      ∃ e, Invocation.unmarshal msg = Except.error e) ∧
    (∀ msg, msg.get? 0 = some (Val.int 70) → msg.length < 3 →
      ∃ e, Yield.unmarshal msg = Except.error e) ∧
    (∀ msg, msg.get? 0 = some (Val.int 8) → msg.length < 5 →
      Error.unmarshal msg = Except.ok Option.none) := by
  refine ⟨?_, ?_, ?_, ?_, ?_, ?_, ?_, ?_, ?_, ?_, ?_, ?_, ?_, ?_, ?_, ?_, ?_, ?_, ?_, ?_⟩
  · intro msg h0 hlen
    rcases msg with _ | ⟨a, _ | ⟨b, _ | ⟨c, rest⟩⟩⟩
    · simp at h0
    · simp at h0
      subst h0
      exact ⟨PyErr.indexError, rfl⟩
    · simp at h0
      subst h0
      exact ⟨PyErr.indexError, rfl⟩
    · simp only [List.length_cons] at hlen
      omega
  · intro msg h0 hlen
    rcases msg with _ | ⟨a, _ | ⟨b, _ | ⟨c, rest⟩⟩⟩
    · simp at h0
    · simp at h0
      subst h0
      exact ⟨PyErr.indexError, rfl⟩
    · simp at h0
      subst h0
      exact ⟨PyErr.indexError, rfl⟩
    · simp only [List.length_cons] at hlen
      omega
  · intro msg h0 hlen
    rcases msg with _ | ⟨a, _ | ⟨b, _ | ⟨c, rest⟩⟩⟩
    · simp at h0
    · simp at h0
      subst h0
      exact ⟨PyErr.indexError, rfl⟩
    · simp at h0
      subst h0
      exact ⟨PyErr.indexError, rfl⟩
    · simp only [List.length_cons] at hlen
      omega
  · intro msg h0 hlen
    rcases msg with _ | ⟨a, _ | ⟨b, _ | ⟨c, rest⟩⟩⟩
    · simp at h0
    · simp at h0
      subst h0
      exact ⟨PyErr.indexError, rfl⟩
    · simp at h0
      subst h0
      exact ⟨PyErr.indexError, rfl⟩
    · simp only [List.length_cons] at hlen
      omega
  · intro msg h0 hlen
    rcases msg with _ | ⟨a, _ | ⟨b, _ | ⟨c, _ | ⟨d, rest⟩⟩⟩⟩
    · simp at h0
    · simp at h0
      subst h0
      exact ⟨PyErr.valueError "Invalid message", rfl⟩
    · simp at h0
      subst h0
      exact ⟨PyErr.valueError "Invalid message", rfl⟩
    · simp at h0
      subst h0
      exact ⟨PyErr.valueError "Invalid message", rfl⟩
    · simp only [List.length_cons] at hlen
      omega
  · intro msg h0 hlen
    rcases msg with _ | ⟨a, _ | ⟨b, _ | ⟨c, rest⟩⟩⟩
    · simp at h0
    · simp at h0
      subst h0
      exact ⟨PyErr.indexError, rfl⟩
    · simp at h0
      subst h0
      exact ⟨PyErr.indexError, rfl⟩
    · simp only [List.length_cons] at hlen
      omega
  · intro msg h0 hlen
    rcases msg with _ | ⟨a, _ | ⟨b, _ | ⟨c, _ | ⟨d, rest⟩⟩⟩⟩
    · simp at h0
    · simp at h0
      subst h0
      exact ⟨PyErr.indexError, rfl⟩
    · simp at h0
      subst h0
      exact ⟨PyErr.indexError, rfl⟩
    · simp at h0
      subst h0
      exact ⟨PyErr.indexError, rfl⟩
    · simp only [List.length_cons] at hlen
      omega
  · intro msg h0 hlen
    rcases msg with _ | ⟨a, _ | ⟨b, _ | ⟨c, rest⟩⟩⟩
    · simp at h0
    · simp at h0
      subst h0
      exact ⟨PyErr.indexError, rfl⟩
    · simp at h0
      subst h0
      exact ⟨PyErr.indexError, rfl⟩
    · simp only [List.length_cons] at hlen
      omega
  · intro msg h0 hlen
    rcases msg with _ | ⟨a, _ | ⟨b, _ | ⟨c, rest⟩⟩⟩
    · simp at h0
    · simp at h0
      subst h0
      exact ⟨PyErr.indexError, rfl⟩
    · simp at h0
      subst h0
      exact ⟨PyErr.indexError, rfl⟩
    · simp only [List.length_cons] at hlen
      omega
  · intro msg h0 hlen
    rcases msg with _ | ⟨a, _ | ⟨b, rest⟩⟩
    · simp at h0
    · simp at h0
      subst h0
      exact ⟨PyErr.indexError, rfl⟩
    · simp only [List.length_cons] at hlen
      omega
  · intro msg h0 hlen
    rcases msg with _ | ⟨a, _ | ⟨b, _ | ⟨c, _ | ⟨d, rest⟩⟩⟩⟩
    · simp at h0
    · simp at h0
      subst h0
      exact ⟨PyErr.valueError "Invalid message", rfl⟩
    · simp at h0
      subst h0
      exact ⟨PyErr.valueError "Invalid message", rfl⟩
    · simp at h0
      subst h0
      exact ⟨PyErr.valueError "Invalid message", rfl⟩
    · simp only [List.length_cons] at hlen
      omega
  · intro msg h0 hlen
    rcases msg with _ | ⟨a, _ | ⟨b, _ | ⟨c, _ | ⟨d, rest⟩⟩⟩⟩
    · simp at h0
    · simp at h0
      subst h0
      exact ⟨PyErr.valueError "Invalid message", rfl⟩
    · simp at h0
      subst h0
      exact ⟨PyErr.valueError "Invalid message", rfl⟩
    · simp at h0
      subst h0
      exact ⟨PyErr.valueError "Invalid message", rfl⟩
    · simp only [List.length_cons] at hlen
      omega
  · intro msg h0 hlen
    rcases msg with _ | ⟨a, _ | ⟨b, _ | ⟨c, rest⟩⟩⟩
    · simp at h0
    · simp at h0
      subst h0
      exact ⟨PyErr.valueError "Invalid message", rfl⟩
    · simp at h0
      subst h0
      exact ⟨PyErr.valueError "Invalid message", rfl⟩
    · simp only [List.length_cons] at hlen
      omega
  · intro msg h0 hlen
    rcases msg with _ | ⟨a, _ | ⟨b, _ | ⟨c, _ | ⟨d, rest⟩⟩⟩⟩
    · simp at h0
    · simp at h0
      subst h0
      exact ⟨PyErr.indexError, rfl⟩
    · simp at h0
      subst h0
      exact ⟨PyErr.indexError, rfl⟩
    · simp at h0
      subst h0
      exact ⟨PyErr.indexError, rfl⟩
    · simp only [List.length_cons] at hlen
      omega
  · intro msg h0 hlen
    rcases msg with _ | ⟨a, _ | ⟨b, _ | ⟨c, rest⟩⟩⟩
    · simp at h0
    · simp at h0
      subst h0
      exact ⟨PyErr.indexError, rfl⟩
    · simp at h0
      subst h0
      exact ⟨PyErr.indexError, rfl⟩
    · simp only [List.length_cons] at hlen
      omega
  · intro msg h0 hlen
    rcases msg with _ | ⟨a, _ | ⟨b, _ | ⟨c, rest⟩⟩⟩
    · simp at h0
    · simp at h0
      subst h0
      exact ⟨PyErr.indexError, rfl⟩
    · simp at h0
      subst h0
      exact ⟨PyErr.indexError, rfl⟩
    · simp only [List.length_cons] at hlen
      omega
  · intro msg h0 hlen
    rcases msg with _ | ⟨a, _ | ⟨b, rest⟩⟩
    · simp at h0
    · simp at h0
      subst h0
      exact ⟨PyErr.indexError, rfl⟩
    · simp only [List.length_cons] at hlen
      omega
  · intro msg h0 hlen
    rcases msg with _ | ⟨a, _ | ⟨b, _ | ⟨c, _ | ⟨d, rest⟩⟩⟩⟩
    · simp at h0
    · simp at h0
      subst h0
      exact ⟨PyErr.valueError "Invalid message", rfl⟩
    · simp at h0
      subst h0
      exact ⟨PyErr.valueError "Invalid message", rfl⟩
    · simp at h0
      subst h0
      exact ⟨PyErr.valueError "Invalid message", rfl⟩
    · simp only [List.length_cons] at hlen
      omega
  · intro msg h0 hlen
    rcases msg with _ | ⟨a, _ | ⟨b, _ | ⟨c, rest⟩⟩⟩
    · simp at h0
    · simp at h0
      subst h0
      exact ⟨PyErr.valueError "Invalid message", rfl⟩
    · simp at h0
      subst h0
      exact ⟨PyErr.valueError "Invalid message", rfl⟩
    · simp only [List.length_cons] at hlen
      omega
  · intro msg h0 hlen
    rcases msg with _ | ⟨a, _ | ⟨b, _ | ⟨c, _ | ⟨d, _ | ⟨e2, rest⟩⟩⟩⟩⟩
    · simp at h0
    · simp at h0
      subst h0
      rfl
    · simp at h0
      subst h0
      rfl
    · simp at h0
      subst h0
      rfl
    · simp at h0
      subst h0
      rfl
    · simp only [List.length_cons] at hlen
      omega

/-- C7 witness: the short-form behaviour applied to a concrete one-element
Subscribe wire form, discharging the tag and length hypotheses. -/
theorem short_form_decode_witness :
    ∃ e, Subscribe.unmarshal [Val.int 32] = Except.error e := by
  exact short_form_decode.2.2.2.2.2.2.1 [Val.int 32] rfl (by simp)

end Wouter
